import Mathlib

/-!
Verification of the SEO-audit backend's normalization and heuristic
extraction pipeline (modules geo_module, seo_health, traffic_estimation and
report of the audited repository) against its natural-language
specification.

Python strings are modelled as `List Char`; Python floats are modelled as
exact rationals (`ℚ`); `int(x)` on non-negative values is modelled as the
floor; `round(x, n)` is modelled as rounding half up to `n` decimal places
(Python rounds half to even; no statement below depends on the behaviour at
exact ties).  Randomly sampled values become explicit function arguments,
with the sampling ranges appearing as hypotheses.  External effects
(HTTP fetches, AI-model responses) become explicit function arguments as
well.
-/

/-! ## Python string primitives -/

/-- Lower-casing of a single character, as Python `str.lower` acts on the
ASCII range (the repository only manipulates ASCII identifiers). -/
def lowerChar (c : Char) : Char :=
  if 65 ≤ c.toNat ∧ c.toNat ≤ 90 then Char.ofNat (c.toNat + 32) else c

/-- Python `s.lower()`. -/
def lowerStr (s : List Char) : List Char := s.map lowerChar

/-- Does `l` begin with `pat`?  Python `s.startswith(pat)`. -/
def startsWith : List Char → List Char → Bool
  | _, [] => true
  | [], _ :: _ => false
  | c :: l, d :: p => c = d && startsWith l p

/-- Index of the first occurrence of `pat` in the second argument, Python
`haystack.find(pat)` (with `none` standing for Python's `-1`). -/
def findSub (pat : List Char) : List Char → Option Nat
  | [] => if startsWith [] pat then some 0 else none
  | c :: t => if startsWith (c :: t) pat then some 0 else (findSub pat t).map (· + 1)

/-- Python `pat in haystack`. -/
def containsSub (haystack pat : List Char) : Bool := (findSub pat haystack).isSome

/-- Python `s.endswith(pat)`. -/
def endsWith (l pat : List Char) : Bool := startsWith l.reverse pat.reverse

/-- Characters stripped by Python's default `str.strip()`. -/
def isPySpace (c : Char) : Bool :=
  c = ' ' || c = '\t' || c = '\n' || c = '\r' || c = '\x0b' || c = '\x0c'

/-- Python `s.strip()`. -/
def stripWs (l : List Char) : List Char :=
  ((l.dropWhile isPySpace).reverse.dropWhile isPySpace).reverse

/-- One application of `re.sub(r'^https?://', '', s)`: the anchored pattern
removes at most one scheme occurrence at the very start. -/
def stripScheme (l : List Char) : List Char :=
  if startsWith l ("http://".toList) then l.drop 7
  else if startsWith l ("https://".toList) then l.drop 8
  else l

/-- One application of `re.sub(r'^www\.', '', s)`. -/
def stripWww (l : List Char) : List Char :=
  if startsWith l ("www.".toList) then l.drop 4 else l

/-- Python `s.rstrip('/')`. -/
def rstripSlash (l : List Char) : List Char :=
  (l.reverse.dropWhile (fun c => c = '/')).reverse

/-- `clean_domain` from `geo_module.py`: lower-case, strip surrounding
whitespace, drop one leading scheme, drop one leading `www.`, drop all
trailing slashes. -/
def clean_domain (domain : List Char) : List Char :=
  rstripSlash (stripWww (stripScheme (stripWs (lowerStr domain))))

/-! ## GEO module: sentiment and rank extraction -/

/-- The fixed positive-word list from `extract_sentiment`. -/
def positive_words : List (List Char) :=
  ["best", "excellent", "great", "amazing", "top", "leading", "recommended",
   "popular", "trusted"].map (fun s => s.toList)

/-- The fixed negative-word list from `extract_sentiment`. -/
def negative_words : List (List Char) :=
  ["worst", "bad", "poor", "terrible", "avoid", "issues", "problems", "scam",
   "unreliable"].map (fun s => s.toList)

/-- `extract_sentiment` from `geo_module.py`.  The slice
`text_lower[start:end]` becomes `drop start` followed by `take (end - start)`
(`start` uses truncated subtraction, matching `max(0, pos - 100)`). -/
def extract_sentiment (text brand : List Char) : String :=
  let text_lower := lowerStr text
  let brand_lower := lowerStr brand
  match findSub brand_lower text_lower with
  | none => "neutral"
  | some brand_pos =>
    let start := brand_pos - 100
    let stop := min text.length (brand_pos + brand.length + 100)
    let context := (text_lower.drop start).take (stop - start)
    let pos_count := (positive_words.filter (fun w => containsSub context w)).length
    let neg_count := (negative_words.filter (fun w => containsSub context w)).length
    if neg_count < pos_count then "positive"
    else if pos_count < neg_count then "negative"
    else "neutral"

/-- The ±100-character window around the first case-insensitive brand
occurrence, as described by the specification (empty if the brand does not
occur). -/
def sentimentWindow (text brand : List Char) : List Char :=
  match findSub (lowerStr brand) (lowerStr text) with
  | none => []
  | some p =>
    ((lowerStr text).drop (p - 100)).take (min text.length (p + brand.length + 100) - (p - 100))

/-- Number of positive-list words occurring in a window. -/
def posHits (w : List Char) : Nat :=
  (positive_words.filter (fun x => containsSub w x)).length

/-- Number of negative-list words occurring in a window. -/
def negHits (w : List Char) : Nat :=
  (negative_words.filter (fun x => containsSub w x)).length

/-- Python `text.split('\n')`. -/
def splitNl : List Char → List (List Char)
  | [] => [[]]
  | c :: t =>
    if c = '\n' then [] :: splitNl t
    else
      match splitNl t with
      | [] => [[c]]
      | h :: r => (c :: h) :: r

/-- Numeric value of a digit string, Python `int(digits)`. -/
def digitsVal (ds : List Char) : Nat :=
  ds.foldl (fun n c => 10 * n + (c.toNat - 48)) 0

/-- The separator class `[.\-)]` of the rank regex. -/
def isSepChar (c : Char) : Bool := c = '.' || c = '-' || c = ')'

/-- `re.match(r'^\s*(\d+)\s*[.\-)]\s*', line)`, returning the captured
number: optional whitespace, one or more digits, optional whitespace, then
one separator character. -/
def parseRankNum (line : List Char) : Option Nat :=
  let l1 := line.dropWhile isPySpace
  let ds := l1.takeWhile Char.isDigit
  if ds.isEmpty then none
  else
    match (l1.dropWhile Char.isDigit).dropWhile isPySpace with
    | [] => none
    | c :: _ => if isSepChar c then some (digitsVal ds) else none

/-- The line loop of `extract_rank` (`i` is the 0-based index of the first
line of `lines` within the full split). -/
def extract_rank_go (brand : List Char) : List (List Char) → Nat → Option Nat
  | [], _ => none
  | line :: rest, i =>
    if containsSub (lowerStr line) (lowerStr brand) then
      match parseRankNum line with
      | some n => some n
      | none => some (i + 1)
    else extract_rank_go brand rest (i + 1)

/-- `extract_rank` from `geo_module.py`. -/
def extract_rank (text brand : List Char) : Option Nat :=
  extract_rank_go brand (splitNl text) 0

/-- Modelled from the claim's words (C5): the captured number is used only
when the line starts with digits immediately followed by a separator — no
surrounding whitespace. -/
def rankClaimParse (line : List Char) : Option Nat :=
  let ds := line.takeWhile Char.isDigit
  if ds.isEmpty then none
  else
    match line.drop ds.length with
    | [] => none
    | c :: _ => if isSepChar c then some (digitsVal ds) else none

/-- Rank extraction exactly as claim C5 states it. -/
def extract_rank_claim (text brand : List Char) : Option Nat :=
  match (splitNl text).findIdx? (fun l => containsSub (lowerStr l) (lowerStr brand)) with
  | none => none
  | some i =>
    match rankClaimParse ((splitNl text).getD i []) with
    | some n => some n
    | none => some (i + 1)

/-- Rank extraction as claim C5 states it, amended to use the code's
whitespace-tolerant number pattern. -/
def extract_rank_amended (text brand : List Char) : Option Nat :=
  match (splitNl text).findIdx? (fun l => containsSub (lowerStr l) (lowerStr brand)) with
  | none => none
  | some i =>
    match parseRankNum ((splitNl text).getD i []) with
    | some n => some n
    | none => some (i + 1)

/-! ## SEO health: Core Web Vitals categorization -/

/-- The thresholds table of `categorize_metric` in `seo_health.py`. -/
def cwv_thresholds (metric_type : String) : Option (ℚ × ℚ) :=
  match metric_type with
  | "lcp" => some (5/2, 4)
  | "fid" => some (100, 300)
  | "cls" => some (1/10, 1/4)
  | "fcp" => some (9/5, 3)
  | "ttfb" => some (4/5, 9/5)
  | _ => none

/-- `categorize_metric` from `seo_health.py`. -/
def categorize_metric (value : ℚ) (metric_type : String) : String :=
  match cwv_thresholds metric_type with
  | none => "unknown"
  | some t =>
    if value ≤ t.1 then "good"
    else if value ≤ t.2 then "needs_improvement"
    else "poor"

/-! ## SEO health: opportunity extraction -/

/-- One Lighthouse audit object (the fields the module reads). -/
structure LhAudit where
  title : Option String
  description : Option String
  score : Option ℚ
  displayValue : Option String
  numericValue : Option ℚ
  details : List (String × String)
deriving DecidableEq

/-- The allow-list `opportunity_audits` of `extract_opportunities`. -/
def opportunity_audits : List String :=
  ["render-blocking-resources", "unused-css-rules", "unused-javascript",
   "modern-image-formats", "efficiently-encode-images", "offscreen-images",
   "minify-css", "minify-javascript", "remove-unused-css",
   "remove-unused-javascript", "uses-optimized-images",
   "uses-text-compression", "uses-responsive-images", "prioritize-lcp-image",
   "font-display"]

/-- The `Opportunity` pydantic model. -/
structure Opportunity where
  title : String
  description : String
  score : Option ℚ
  savings : Option String
  priority : String
deriving DecidableEq

/-- The opportunity built for an allow-listed audit whose score `s` is
present and `< 1`. -/
def mkOpportunity (audit_id : String) (a : LhAudit) (s : ℚ) : Opportunity :=
  { title := a.title.getD audit_id
    description := a.description.getD ""
    score := some s
    savings := some (a.displayValue.getD "")
    priority := if s < mkRat 1 2 then "high" else "medium" }

/-- The unsorted opportunity list accumulated by the allow-list loop of
`extract_opportunities`. -/
def opportunityCandidates (audits : List (String × LhAudit)) : List Opportunity :=
  opportunity_audits.filterMap (fun audit_id =>
    match audits.lookup audit_id with
    | none => none
    | some a =>
      match a.score with
      | none => none
      | some s => if s < 1 then some (mkOpportunity audit_id a s) else none)

/-- The Python sort key `x.score or 1`: `or` treats the float `0.0` (and
`None`) as falsy, so both map to `1`. -/
def pyOr1 (s : Option ℚ) : ℚ :=
  match s with
  | none => 1
  | some q => if q = 0 then 1 else q

/-- `extract_opportunities` from `seo_health.py`.  Python's stable
`list.sort` is modelled by stable insertion sort. -/
def extract_opportunities (audits : List (String × LhAudit)) : List Opportunity :=
  List.insertionSort (fun a b => pyOr1 a.score ≤ pyOr1 b.score)
    (opportunityCandidates audits)

/-- Modelled from the claim's words (C3): include an allow-listed check iff
its score is present and `< 1`, priority `high` iff score `< 0.5`, sort
ascending by score with an absent score treated as `1`. -/
def extractOpportunitiesSpec (audits : List (String × LhAudit)) : List Opportunity :=
  List.insertionSort (fun a b => a.score.getD 1 ≤ b.score.getD 1)
    (opportunity_audits.filterMap (fun audit_id =>
      (audits.lookup audit_id).bind (fun a =>
        a.score.bind (fun s =>
          if s < 1 then
            some { title := a.title.getD audit_id
                   description := a.description.getD ""
                   score := some s
                   savings := some (a.displayValue.getD "")
                   priority := if s < mkRat 1 2 then "high" else "medium" }
          else none))))

/-! ## SEO health: demo data and the analyze operation -/

/-- Rounding half up to `nd` decimal places, modelling Python
`round(x, nd)` away from exact ties. -/
def roundTo (nd : ℕ) (q : ℚ) : ℚ := (round (q * 10 ^ nd) : ℤ) / 10 ^ nd

/-- The `CoreWebVitals` pydantic model. -/
structure CoreWebVitals where
  lcp : Option ℚ
  lcp_category : Option String
  fid : Option ℚ
  fid_category : Option String
  cls : Option ℚ
  cls_category : Option String
  fcp : Option ℚ
  fcp_category : Option String
  ttfb : Option ℚ
  ttfb_category : Option String
deriving DecidableEq

/-- One diagnostics entry assembled by `extract_diagnostics`. -/
structure DiagEntry where
  id : String
  title : String
  description : String
  value : String
  score : Option ℚ
  details : List (String × String)
deriving DecidableEq

/-- The `SEOHealthResponse` pydantic model (`metadata` as a key/value
list). -/
structure SEOHealthResponse where
  url : String
  strategy : String
  performance_score : Option ℤ
  seo_score : Option ℤ
  accessibility_score : Option ℤ
  best_practices_score : Option ℤ
  core_web_vitals : CoreWebVitals
  opportunities : List Opportunity
  diagnostics : List DiagEntry
  metadata : List (String × String)
  recommendations : List String
deriving DecidableEq

/-- The random draws of `get_demo_seo_data` (each `random.randint` /
`random.uniform` / `random.choice` call becomes one field). -/
structure DemoDraws where
  perf : ℕ
  seo : ℕ
  acc : ℕ
  best : ℕ
  lcp : ℚ
  lcpCat : String
  fid : ℕ
  fidCat : String
  cls : ℚ
  clsCat : String
  fcp : ℚ
  ttfb : ℚ

/-- `get_demo_seo_data` from `seo_health.py`. -/
def get_demo_seo_data (url strategy : String) (d : DemoDraws) : SEOHealthResponse :=
  { url := url
    strategy := strategy
    performance_score := some (d.perf : ℤ)
    seo_score := some (d.seo : ℤ)
    accessibility_score := some (d.acc : ℤ)
    best_practices_score := some (d.best : ℤ)
    core_web_vitals :=
      { lcp := some (roundTo 2 d.lcp), lcp_category := some d.lcpCat
        fid := some (d.fid : ℚ), fid_category := some d.fidCat
        cls := some (roundTo 3 d.cls), cls_category := some d.clsCat
        fcp := some (roundTo 2 d.fcp), fcp_category := some "good"
        ttfb := some (roundTo 2 d.ttfb), ttfb_category := some "good" }
    opportunities :=
      [{ title := "Eliminate render-blocking resources"
         description := "Resources are blocking the first paint of your page."
         score := some (42/100), savings := some "1.2s", priority := "high" },
       { title := "Properly size images"
         description := "Serve images that are appropriately-sized."
         score := some (65/100), savings := some "0.8s", priority := "medium" }]
    diagnostics := []
    metadata :=
      [("lighthouse_version", "11.0.0"),
       ("fetch_time", "2024-01-15T10:30:00Z"), ("demo_mode", "True")]
    recommendations :=
      ["⚠️ Performance needs improvement. Consider lazy loading images.",
       "📋 SEO Score could be improved. Check meta tags and headings.",
       "♿ Accessibility score needs attention. Add alt text to images."] }

/-- One Lighthouse category object. -/
structure LhCategory where
  score : Option ℚ
deriving DecidableEq

/-- The `categories` object of a Lighthouse result. -/
structure LhCategories where
  performance : Option LhCategory
  seo : Option LhCategory
  accessibility : Option LhCategory
  best_practices : Option LhCategory
deriving DecidableEq

/-- A Lighthouse result (`lighthouseResult` in the PageSpeed payload). -/
structure LhResult where
  categories : LhCategories
  audits : List (String × LhAudit)
  lighthouseVersion : String
  fetchTime : String
  userAgent : String
  environment : String
deriving DecidableEq

/-- Python truthiness applied to an optional numeric metric value
(`round(v, 3) if v else None` with `v == 0.0` falsy). -/
def truthyRound3 (v : Option ℚ) : Option ℚ :=
  match v with
  | none => none
  | some q => if q = 0 then none else some (roundTo 3 q)

/-- Category of an optional metric value under the same truthiness rule. -/
def truthyCategory (v : Option ℚ) (metric : String) : Option String :=
  match v with
  | none => none
  | some q => if q = 0 then none else some (categorize_metric q metric)

/-- `extract_core_web_vitals` from `seo_health.py` (`audits.get(k, {})` is
falsy exactly when the key is missing, making the metric `None`). -/
def extract_core_web_vitals (lh : LhResult) : CoreWebVitals :=
  let lcp := (lh.audits.lookup "largest-contentful-paint").map
    (fun a => (a.numericValue.getD 0) / 1000)
  let fid := (lh.audits.lookup "total-blocking-time").map
    (fun a => (a.numericValue.getD 0) / 1000 * (1/10))
  let cls := (lh.audits.lookup "cumulative-layout-shift").map
    (fun a => a.numericValue.getD 0)
  let fcp := (lh.audits.lookup "first-contentful-paint").map
    (fun a => (a.numericValue.getD 0) / 1000)
  let ttfb := (lh.audits.lookup "server-response-time").map
    (fun a => (a.numericValue.getD 0) / 1000)
  { lcp := truthyRound3 lcp, lcp_category := truthyCategory lcp "lcp"
    fid := truthyRound3 fid, fid_category := truthyCategory fid "fid"
    cls := truthyRound3 cls, cls_category := truthyCategory cls "cls"
    fcp := truthyRound3 fcp, fcp_category := truthyCategory fcp "fcp"
    ttfb := truthyRound3 ttfb, ttfb_category := truthyCategory ttfb "ttfb" }

/-- The fixed id list of `extract_diagnostics`. -/
def diagnostic_audits : List String :=
  ["mainthread-work-breakdown", "bootup-time", "uses-long-cache-ttl",
   "total-byte-weight", "dom-size", "network-requests", "network-rtt",
   "network-server-latency", "main-thread-tasks", "diagnostics", "metrics",
   "screenshot-thumbnails", "final-screenshot", "script-treemap-data"]

/-- `extract_diagnostics` from `seo_health.py`. -/
def extract_diagnostics (lh : LhResult) : List DiagEntry :=
  diagnostic_audits.filterMap (fun audit_id =>
    (lh.audits.lookup audit_id).map (fun a =>
      { id := audit_id
        title := a.title.getD ""
        description := a.description.getD ""
        value := a.displayValue.getD ""
        score := a.score
        details := a.details }))

/-- `generate_recommendations` from `seo_health.py` (rule table; the
`f"..."` messages keep their fixed prefix with the dynamic parts
concatenated). -/
def generate_recommendations (r : SEOHealthResponse) : List String :=
  let recs :=
    (match r.performance_score with
     | some p =>
       if p < 50 then
         ["🚨 Critical: Performance score is very low. Prioritize optimizing images, reducing JavaScript, and implementing code splitting."]
       else if p < 90 then
         ["⚠️ Performance needs improvement. Consider lazy loading images and deferring non-critical JavaScript."]
       else []
     | none => []) ++
    (match r.seo_score with
     | some s =>
       if s < 90 then
         ["📋 SEO Score could be improved. Check meta tags, headings structure, and ensure proper canonical URLs."]
       else []
     | none => []) ++
    (match r.accessibility_score with
     | some a =>
       if a < 90 then
         ["♿ Accessibility score needs attention. Add alt text to images and ensure proper color contrast."]
       else []
     | none => []) ++
    (if r.core_web_vitals.lcp_category = some "poor" then
       ["🐌 LCP is poor. Optimize your largest content element (usually hero image) and improve server response time."]
     else []) ++
    (if r.core_web_vitals.cls_category = some "poor" then
       ["📐 CLS is poor. Reserve space for images and ads to prevent layout shifts."]
     else []) ++
    (if r.core_web_vitals.fid_category = some "poor" then
       ["👆 FID is poor. Reduce JavaScript execution time and break up long tasks."]
     else []) ++
    ((r.opportunities.take 3).filterMap (fun o =>
      if o.priority = "high" then
        some ("🔧 High Priority: " ++ o.title ++ " - " ++ o.description.take 100 ++ "...")
      else none))
  if recs.isEmpty then
    ["✅ Great job! Your website is well-optimized. Continue monitoring for any changes."]
  else recs

/-- Outcome of the PageSpeed HTTP call (made explicit: success payload,
HTTP error status, or timeout). -/
inductive FetchResult where
  | ok (lh : LhResult)
  | httpError (status : ℤ) (body : String)
  | timeout
deriving DecidableEq

/-- An `HTTPException` raised by the endpoint. -/
structure ApiError where
  status : ℤ
  detail : String
deriving DecidableEq

/-- `int(score * 100)` applied to an optional category score. -/
def scoreTimes100 (c : Option LhCategory) : Option ℤ :=
  c.bind (fun cat => cat.score.map (fun s => ⌊s * 100⌋))

/-- `analyze_seo_health` from `seo_health.py`: with no API key configured
the demo payload is returned without touching the network; otherwise the
fetch outcome is normalized or surfaced as an error. -/
def analyze_seo_health (apiKey : String) (fetch : FetchResult) (d : DemoDraws)
    (url strategy : String) : Except ApiError SEOHealthResponse :=
  if apiKey = "" then .ok (get_demo_seo_data url strategy d)
  else
    match fetch with
    | .ok lh =>
      let r : SEOHealthResponse :=
        { url := url
          strategy := strategy
          performance_score := scoreTimes100 lh.categories.performance
          seo_score := scoreTimes100 lh.categories.seo
          accessibility_score := scoreTimes100 lh.categories.accessibility
          best_practices_score := scoreTimes100 lh.categories.best_practices
          core_web_vitals := extract_core_web_vitals lh
          opportunities := extract_opportunities lh.audits
          diagnostics := extract_diagnostics lh
          metadata :=
            [("lighthouse_version", lh.lighthouseVersion),
             ("fetch_time", lh.fetchTime), ("user_agent", lh.userAgent),
             ("environment", lh.environment)]
          recommendations := [] }
      .ok { r with recommendations := generate_recommendations r }
    | .httpError st body =>
      .error { status := st, detail := "PageSpeed Insights API error: " ++ body }
    | .timeout =>
      .error { status := 504
               detail := "Request to PageSpeed Insights API timed out. Please try again." }

/-! ## Traffic estimation -/

/-- The `TrafficMetrics` pydantic model. -/
structure TrafficMetrics where
  monthly_visits : ℤ
  monthly_visits_min : ℤ
  monthly_visits_max : ℤ
  avg_visit_duration : Option String
  pages_per_visit : Option ℚ
  bounce_rate : Option ℚ
deriving DecidableEq

/-- The adjusted base figure of `estimate_traffic_metrics`: the sampled
base, doubled when `.gov` or `.edu` occurs in the domain (Python `in` is a
substring test), then times 1.5 when the domain has fewer than 10
characters. -/
def trafficBase (domain : List Char) (base : ℕ) : ℚ :=
  let b1 : ℚ :=
    if containsSub domain (".gov".toList) || containsSub domain (".edu".toList) then
      (base : ℚ) * 2
    else (base : ℚ)
  if domain.length < 10 then b1 * (3/2) else b1

/-- Modelled from the claim's words (C6): the doubling applies when the
domain ENDS in `.gov` or `.edu`. -/
def trafficBaseSpec (domain : List Char) (base : ℕ) : ℚ :=
  let b1 : ℚ :=
    if endsWith domain (".gov".toList) || endsWith domain (".edu".toList) then
      (base : ℚ) * 2
    else (base : ℚ)
  if domain.length < 10 then b1 * (3/2) else b1

/-- `estimate_traffic_metrics` from `traffic_estimation.py` (`base` is the
`random.randint(10000, 500000)` draw; the duration/pages/bounce draws are
the remaining arguments). -/
def estimate_traffic_metrics (domain : List Char) (base : ℕ) (durM durS : ℕ)
    (pages bounce : ℚ) : TrafficMetrics :=
  let b := trafficBase domain base
  { monthly_visits := ⌊b⌋
    monthly_visits_min := ⌊b * (7/10)⌋
    monthly_visits_max := ⌊b * (13/10)⌋
    avg_visit_duration := some (toString durM ++ "m " ++ toString durS ++ "s")
    pages_per_visit := some (roundTo 2 pages)
    bounce_rate := some (roundTo 2 bounce) }

/-- The `TrafficSource` pydantic model. -/
structure TrafficSource where
  source : String
  percentage : ℚ
  estimated_visits : ℤ
deriving DecidableEq

/-- `estimate_traffic_sources` from `traffic_estimation.py` (`w1` … `w6`
are the six `random.uniform` draws, in the order of the source list). -/
def estimate_traffic_sources (total_visits : ℤ) (w1 w2 w3 w4 w5 w6 : ℚ) :
    List TrafficSource :=
  let sources : List (String × ℚ) :=
    [("Organic Search", w1), ("Direct", w2), ("Referral", w3),
     ("Social Media", w4), ("Paid Search", w5), ("Email", w6)]
  let total : ℚ := (sources.map (fun p => p.2)).sum
  let normalized := sources.map (fun p => (p.1, p.2 / total))
  normalized.map (fun p =>
    { source := p.1
      percentage := roundTo 1 (p.2 * 100)
      estimated_visits := ⌊(total_visits : ℚ) * p.2⌋ })

/-- Sum of the reported percentages of a traffic-source list. -/
def sumPercent (l : List TrafficSource) : ℚ := (l.map (fun s => s.percentage)).sum

/-! ## GEO module: the analyze operation -/

/-- The `BrandMention` pydantic model. -/
structure BrandMention where
  platform : String
  query : List Char
  mentioned : Bool
  context : Option (List Char)
  sentiment : Option String
  rank : Option ℕ
  competitors_mentioned : Option (List (List Char))
deriving DecidableEq

/-- The `sentiment_breakdown` dictionary; `extract_sentiment` only ever
produces the keys `positive`, `negative` and `neutral`, so the three fixed
counters model the dict faithfully. -/
structure SentimentBreakdown where
  positive : ℕ
  negative : ℕ
  neutral : ℕ
deriving DecidableEq

/-- The `GEOSummary` pydantic model. -/
structure GEOSummary where
  total_checks : ℕ
  mentions_found : ℕ
  mention_rate : ℚ
  sentiment_breakdown : SentimentBreakdown
  average_rank : Option ℚ
deriving DecidableEq

/-- The GEO recommendation messages, abstracted to their identity with the
dynamic values carried as data (the surrounding `f"..."` text is fixed). -/
inductive GeoRec where
  | lowVisibility (ratePct : ℚ)
  | moderateVisibility (ratePct : ℚ)
  | strongVisibility (ratePct : ℚ)
  | lowPositiveSentiment
  | negativeReputation
  | improveRank (avg : ℚ)
  | keywordTargeting (kws : List (List Char))
  | createContent
  | buildBacklinks
  | platformPresence
  | manageReviews
  | bestOfLists
deriving DecidableEq

/-- `generate_geo_recommendations` from `geo_module.py`. -/
def generate_geo_recommendations (summary : GEOSummary)
    (keywords : List (List Char)) : List GeoRec :=
  (if summary.mention_rate < 3/10 then
     [GeoRec.lowVisibility (summary.mention_rate * 100)]
   else if summary.mention_rate < 7/10 then
     [GeoRec.moderateVisibility (summary.mention_rate * 100)]
   else [GeoRec.strongVisibility (summary.mention_rate * 100)]) ++
  (let sb := summary.sentiment_breakdown
   let tot := sb.positive + sb.negative + sb.neutral
   if 0 < tot then
     (if (sb.positive : ℚ) / tot < 1/2 then [GeoRec.lowPositiveSentiment] else []) ++
     (if 1/5 < (sb.negative : ℚ) / tot then [GeoRec.negativeReputation] else [])
   else []) ++
  (match summary.average_rank with
   | some r => if r ≠ 0 ∧ 3 < r then [GeoRec.improveRank r] else []
   | none => []) ++
  (if keywords.isEmpty then [] else [GeoRec.keywordTargeting keywords]) ++
  [GeoRec.createContent, GeoRec.buildBacklinks, GeoRec.platformPresence,
   GeoRec.manageReviews, GeoRec.bestOfLists]

/-- The `GEORequest` pydantic model. -/
structure GEORequest where
  domain : List Char
  keywords : List (List Char)
  check_competitors : Bool

/-- The query set constructed by `analyze_geo` (first 3 keywords only). -/
def geoQueries (domain : List Char) (keywords : List (List Char)) :
    List (List Char) :=
  ["What is ".toList ++ domain ++ "?".toList,
   "Who are the main competitors of ".toList ++ domain ++ "?".toList] ++
  (keywords.take 3).flatMap (fun k =>
    ["What are the best tools for ".toList ++ k ++ "?".toList,
     "Compare top ".toList ++ k ++ " platforms".toList])

/-- One probe outcome, as `analyze_geo` assembles it from a response text
(`compExtract` stands for `extract_competitors`, which no claim touches;
every statement below holds for an arbitrary competitor extractor). -/
def mkBrandMention (platform : String) (query domain text : List Char)
    (checkComp : Bool)
    (compExtract : List Char → List Char → List (List Char)) : BrandMention :=
  let mentioned := containsSub (lowerStr text) (lowerStr domain)
  { platform := platform
    query := query
    mentioned := mentioned
    context := if mentioned then some (text.take 500) else none
    sentiment := if mentioned then some (extract_sentiment text domain) else none
    rank := if mentioned then extract_rank text domain else none
    competitors_mentioned := if checkComp then some (compExtract text domain) else none }

/-- Increment of the sentiment-breakdown dict at a key. -/
def sbIncr (sb : SentimentBreakdown) (s : String) : SentimentBreakdown :=
  if s = "positive" then { sb with positive := sb.positive + 1 }
  else if s = "negative" then { sb with negative := sb.negative + 1 }
  else if s = "neutral" then { sb with neutral := sb.neutral + 1 }
  else sb

/-- The `GEOResponse` pydantic model (raw-response echo omitted). -/
structure GEOResponse where
  domain : List Char
  keywords : List (List Char)
  mentions : List BrandMention
  summary : GEOSummary
  recommendations : List GeoRec

/-- `analyze_geo` from `geo_module.py`.  `gem` and `chat` return the
response text of the respective backend for a query (live or simulated —
the extraction pipeline is the same either way). -/
def analyze_geo (req : GEORequest) (gem chat : List Char → List Char)
    (compExtract : List Char → List Char → List (List Char)) : GEOResponse :=
  let domain := clean_domain req.domain
  let queries := geoQueries domain req.keywords
  let mentions := queries.flatMap (fun q =>
    [mkBrandMention "gemini" q domain (gem q) req.check_competitors compExtract,
     mkBrandMention "chatgpt" q domain (chat q) req.check_competitors compExtract])
  let total_checks := mentions.length
  let mentions_found := mentions.countP (fun m => m.mentioned)
  let mention_rate : ℚ :=
    if 0 < total_checks then (mentions_found : ℚ) / total_checks else 0
  let sb := mentions.foldl
    (fun acc m => match m.sentiment with | some s => sbIncr acc s | none => acc)
    ⟨0, 0, 0⟩
  let ranks := mentions.filterMap (fun m =>
    match m.rank with
    | some r => if r = 0 then none else some r
    | none => none)
  let summary : GEOSummary :=
    { total_checks := total_checks
      mentions_found := mentions_found
      mention_rate := roundTo 2 mention_rate
      sentiment_breakdown := sb
      average_rank :=
        if ranks.isEmpty then none
        else some (roundTo 1 ((ranks.map (fun r => (r : ℚ))).sum / ranks.length)) }
  { domain := domain
    keywords := req.keywords
    mentions := mentions
    summary := summary
    recommendations := generate_geo_recommendations summary req.keywords }

/-! ## Report builder

The PDF layout engine is external; a report is modelled as the ordered list
of flowables the code appends, with styling reduced to the constructor and
`f"..."` formatting reduced to the list of fixed text fragments and raw
values (`Cell`) it interpolates.  A payload dict is modelled as a record of
optional fields; a present-but-empty dict (falsy in Python) is modelled as
an absent field. -/

/-- One interpolated fragment of a paragraph or table cell. -/
inductive Cell where
  | s (v : String)
  | i (v : ℤ)
  | q (v : ℚ)
deriving DecidableEq

/-- One flowable appended to the document, by paragraph style. -/
inductive Elem where
  | title (cells : List Cell)
  | subtitle (cells : List Cell)
  | heading (t : String)
  | subheading (t : String)
  | para (cells : List Cell)
  | table (rows : List (List Cell))
  | spacer
  | pageBreak
deriving DecidableEq

/-- Core-web-vitals slice of an SEO payload handed to the report. -/
structure ReportSeoCwv where
  lcp : Option ℚ
  lcp_category : Option String
  fid : Option ℚ
  fid_category : Option String
  cls : Option ℚ
  cls_category : Option String
  fcp : Option ℚ
  fcp_category : Option String
  ttfb : Option ℚ
  ttfb_category : Option String
deriving DecidableEq

/-- The `seo_data` payload dict. -/
structure ReportSeoData where
  performance_score : Option ℤ
  seo_score : Option ℤ
  accessibility_score : Option ℤ
  best_practices_score : Option ℤ
  core_web_vitals : Option ReportSeoCwv
  recommendations : Option (List String)
deriving DecidableEq

/-- The `index_status` sub-dict of a search payload. -/
structure ReportIndexStatus where
  total_pages : Option ℤ
  indexed_pages : Option ℤ
  not_indexed_pages : Option ℤ
  pending_pages : Option ℤ
  errors : Option ℤ
  warnings : Option ℤ
deriving DecidableEq

/-- One `search_performance` row. -/
structure ReportPerfRow where
  query : Option String
  clicks : Option ℤ
  impressions : Option ℤ
  ctr : Option ℚ
  position : Option ℚ
deriving DecidableEq

/-- The `search_data` payload dict. -/
structure ReportSearchData where
  index_status : Option ReportIndexStatus
  search_performance : Option (List ReportPerfRow)
  recommendations : Option (List String)
deriving DecidableEq

/-- The `summary` sub-dict of a GEO payload (`sentiment_breakdown` as a
key/count list, mirroring `.items()`). -/
structure ReportGeoSummary where
  total_checks : Option ℤ
  mentions_found : Option ℤ
  mention_rate : Option ℚ
  average_rank : Option ℚ
  sentiment_breakdown : Option (List (String × ℤ))
deriving DecidableEq

/-- The `geo_data` payload dict. -/
structure ReportGeoData where
  summary : Option ReportGeoSummary
  recommendations : Option (List String)
deriving DecidableEq

/-- The `metrics` sub-dict of a traffic payload. -/
structure ReportTrafficMetricsD where
  monthly_visits : Option ℤ
  monthly_visits_min : Option ℤ
  monthly_visits_max : Option ℤ
  avg_visit_duration : Option String
  pages_per_visit : Option ℚ
  bounce_rate : Option ℚ
deriving DecidableEq

/-- One `traffic_sources` entry. -/
structure ReportTrafficSourceD where
  source : Option String
  percentage : Option ℚ
  estimated_visits : Option ℤ
deriving DecidableEq

/-- One `top_keywords` entry. -/
structure ReportKeywordD where
  keyword : Option String
  position : Option ℤ
  volume : Option ℤ
  cpc : Option ℚ
deriving DecidableEq

/-- The `traffic_data` payload dict. -/
structure ReportTrafficData where
  metrics : Option ReportTrafficMetricsD
  traffic_sources : Option (List ReportTrafficSourceD)
  top_keywords : Option (List ReportKeywordD)
  recommendations : Option (List String)
  confidence_level : Option String
  growth_trend : Option String
deriving DecidableEq

/-- The `ReportRequest` pydantic model. -/
structure ReportRequest where
  url : String
  seo_data : Option ReportSeoData
  search_data : Option ReportSearchData
  geo_data : Option ReportGeoData
  traffic_data : Option ReportTrafficData
  include_sections : List String
  company_name : Option String
deriving DecidableEq

/-- `str(x)` of an optional integer with `"N/A"` as the missing default. -/
def optIntCell (o : Option ℤ) : Cell :=
  match o with
  | some v => Cell.i v
  | none => Cell.s "N/A"

/-- Header row of the top-search-queries table. -/
def perfHeader : List Cell :=
  [Cell.s "Query", Cell.s "Clicks", Cell.s "Impressions", Cell.s "CTR",
   Cell.s "Position"]

/-- Header row of the top-keywords table. -/
def kwHeader : List Cell :=
  [Cell.s "Keyword", Cell.s "Position", Cell.s "Volume", Cell.s "CPC"]

/-- Header row of the traffic-sources table. -/
def sourcesHeader : List Cell :=
  [Cell.s "Source", Cell.s "Percentage", Cell.s "Est. Visits"]

/-- The title page. -/
def titleBlock (req : ReportRequest) (now : String) : List Elem :=
  [Elem.spacer, Elem.title [Cell.s "SEO Audit Report"], Elem.spacer,
   Elem.subtitle [Cell.s "Website: ", Cell.s req.url], Elem.spacer,
   Elem.subtitle [Cell.s "Generated: ", Cell.s now]] ++
  (match req.company_name with
   | some c => [Elem.spacer, Elem.subtitle [Cell.s "Prepared for: ", Cell.s c]]
   | none => []) ++
  [Elem.pageBreak]

/-- Status word of the executive-summary stats table. -/
def scoreStatus (v : ℤ) : String :=
  if 90 ≤ v then "Good" else if 50 ≤ v then "Needs Improvement" else "Poor"

/-- Rows of the executive-summary key-metrics table. -/
def statsRows (seo : ReportSeoData) (traffic : Option ReportTrafficData) :
    List (List Cell) :=
  [Cell.s "Metric", Cell.s "Score", Cell.s "Status"] ::
  ((match seo.performance_score with
    | some v => [[Cell.s "Performance", Cell.i v, Cell.s (scoreStatus v)]]
    | none => []) ++
   (match seo.seo_score with
    | some v => [[Cell.s "SEO", Cell.i v, Cell.s (scoreStatus v)]]
    | none => []) ++
   (match seo.accessibility_score with
    | some v => [[Cell.s "Accessibility", Cell.i v, Cell.s (scoreStatus v)]]
    | none => []) ++
   (match traffic with
    | some t =>
      match t.metrics with
      | some m =>
        [[Cell.s "Est. Monthly Visits", Cell.i (m.monthly_visits.getD 0),
          Cell.s "Estimated"]]
      | none => []
    | none => []))

/-- The key-metrics sub-block of the executive summary (present only with
an SEO payload). -/
def statsBlock (req : ReportRequest) : List Elem :=
  match req.seo_data with
  | some seo =>
    [Elem.subheading "Key Metrics Overview",
     Elem.table (statsRows seo req.traffic_data), Elem.spacer]
  | none => []

/-- The executive summary. -/
def execBlock (req : ReportRequest) : List Elem :=
  [Elem.heading "Executive Summary", Elem.spacer,
   Elem.para [Cell.s "This comprehensive SEO audit report provides detailed analysis of ",
              Cell.s req.url],
   Elem.spacer] ++
  statsBlock req ++
  [Elem.pageBreak]

/-- Rating word of the SEO scores table. -/
def ratingOf (v : ℤ) : String :=
  if 90 ≤ v then "⭐ Excellent"
  else if 70 ≤ v then "✓ Good"
  else if 50 ≤ v then "⚠ Needs Work"
  else "❌ Poor"

/-- Rows of the SEO scores table. -/
def scoresRows (seo : ReportSeoData) : List (List Cell) :=
  [Cell.s "Category", Cell.s "Score", Cell.s "Rating"] ::
  ((match seo.performance_score with
    | some v => [[Cell.s "Performance", Cell.i v, Cell.s (ratingOf v)]]
    | none => []) ++
   (match seo.seo_score with
    | some v => [[Cell.s "SEO", Cell.i v, Cell.s (ratingOf v)]]
    | none => []) ++
   (match seo.accessibility_score with
    | some v => [[Cell.s "Accessibility", Cell.i v, Cell.s (ratingOf v)]]
    | none => []) ++
   (match seo.best_practices_score with
    | some v => [[Cell.s "Best Practices", Cell.i v, Cell.s (ratingOf v)]]
    | none => []))

/-- Status icon of the core-web-vitals table. -/
def statusIcon (st : Option String) : String :=
  if st = some "good" then "✓"
  else if st = some "needs_improvement" then "⚠" else "❌"

/-- Rows of the core-web-vitals table. -/
def cwvRows (cwv : ReportSeoCwv) : List (List Cell) :=
  [Cell.s "Metric", Cell.s "Value", Cell.s "Target", Cell.s "Status"] ::
  ((match cwv.lcp with
    | some v => [[Cell.s "LCP (Largest Contentful Paint)", Cell.q v,
                  Cell.s "< 2.5s", Cell.s (statusIcon cwv.lcp_category)]]
    | none => []) ++
   (match cwv.fid with
    | some v => [[Cell.s "FID (First Input Delay)", Cell.q v,
                  Cell.s "< 100ms", Cell.s (statusIcon cwv.fid_category)]]
    | none => []) ++
   (match cwv.cls with
    | some v => [[Cell.s "CLS (Cumulative Layout Shift)", Cell.q v,
                  Cell.s "< 0.1", Cell.s (statusIcon cwv.cls_category)]]
    | none => []) ++
   (match cwv.fcp with
    | some v => [[Cell.s "FCP (First Contentful Paint)", Cell.q v,
                  Cell.s "< 1.8s", Cell.s (statusIcon cwv.fcp_category)]]
    | none => []) ++
   (match cwv.ttfb with
    | some v => [[Cell.s "TTFB (Time to First Byte)", Cell.q v,
                  Cell.s "< 0.8s", Cell.s (statusIcon cwv.ttfb_category)]]
    | none => []))

/-- The optional core-web-vitals sub-block. -/
def cwvBlock (o : Option ReportSeoCwv) : List Elem :=
  match o with
  | some cwv =>
    [Elem.subheading "Core Web Vitals", Elem.table (cwvRows cwv), Elem.spacer]
  | none => []

/-- One `• {rec}` paragraph per recommendation. -/
def bulletParas (recs : List String) : List Elem :=
  recs.map (fun r => Elem.para [Cell.s "• ", Cell.s r])

/-- The shared recommendations sub-block: present and truthy (non-empty)
list only, truncated to its top 5 entries.  All four module sections use
this shape. -/
def recsBlock (t : String) (o : Option (List String)) : List Elem :=
  match o with
  | some recs =>
    if recs.isEmpty then []
    else Elem.subheading t :: (bulletParas (recs.take 5) ++ [Elem.spacer])
  | none => []

/-- The SEO section (emitted iff `"seo"` is included and the payload is
present). -/
def seoBlock (req : ReportRequest) : List Elem :=
  if "seo" ∈ req.include_sections then
    match req.seo_data with
    | some seo =>
      [Elem.heading "1. SEO Health Analysis", Elem.spacer,
       Elem.subheading "Performance Scores", Elem.table (scoresRows seo),
       Elem.spacer] ++
      cwvBlock seo.core_web_vitals ++
      recsBlock "SEO Recommendations" seo.recommendations ++
      [Elem.pageBreak]
    | none => []
  else []

/-- Rows of the index-status table (the pending/errors/warnings rows appear
only when present and non-zero — Python truthiness). -/
def indexRows (idx : ReportIndexStatus) : List (List Cell) :=
  [Cell.s "Metric", Cell.s "Value"] ::
  ([[Cell.s "Total Pages", optIntCell idx.total_pages],
    [Cell.s "Indexed Pages", optIntCell idx.indexed_pages],
    [Cell.s "Not Indexed", optIntCell idx.not_indexed_pages]] ++
   (match idx.pending_pages with
    | some v => if v = 0 then [] else [[Cell.s "Pending", Cell.i v]]
    | none => []) ++
   (match idx.errors with
    | some v => if v = 0 then [] else [[Cell.s "Errors", Cell.i v]]
    | none => []) ++
   (match idx.warnings with
    | some v => if v = 0 then [] else [[Cell.s "Warnings", Cell.i v]]
    | none => []))

/-- The optional index-status sub-block. -/
def idxBlock (o : Option ReportIndexStatus) : List Elem :=
  match o with
  | some idx =>
    [Elem.subheading "Index Status", Elem.table (indexRows idx), Elem.spacer]
  | none => []

/-- One row of the top-search-queries table. -/
def perfRow (p : ReportPerfRow) : List Cell :=
  [Cell.s (p.query.getD ""), Cell.i (p.clicks.getD 0),
   Cell.i (p.impressions.getD 0), Cell.q ((p.ctr.getD 0) * 100),
   Cell.q (p.position.getD 0)]

/-- The optional top-search-queries sub-block (top 5 rows). -/
def perfBlock (o : Option (List ReportPerfRow)) : List Elem :=
  match o with
  | some perf =>
    if perf.isEmpty then []
    else
      [Elem.subheading "Top Search Queries",
       Elem.table (perfHeader :: (perf.take 5).map perfRow), Elem.spacer]
  | none => []

/-- The search-visibility section. -/
def searchBlock (req : ReportRequest) : List Elem :=
  if "search" ∈ req.include_sections then
    match req.search_data with
    | some search =>
      [Elem.heading "2. Search Visibility Analysis", Elem.spacer] ++
      idxBlock search.index_status ++
      perfBlock search.search_performance ++
      recsBlock "Search Visibility Recommendations" search.recommendations ++
      [Elem.pageBreak]
    | none => []
  else []

/-- The AI-visibility summary paragraph. -/
def geoSummaryPara (s : ReportGeoSummary) : Elem :=
  Elem.para
    [Cell.s "Total Checks: ", Cell.i (s.total_checks.getD 0),
     Cell.s "Mentions Found: ", Cell.i (s.mentions_found.getD 0),
     Cell.s "Mention Rate: ", Cell.q ((s.mention_rate.getD 0) * 100),
     Cell.s "Average Rank: ",
     (match s.average_rank with
      | some r => Cell.q r
      | none => Cell.s "N/A")]

/-- Sentiment icon of the GEO sentiment paragraphs. -/
def sentimentIcon (k : String) : String :=
  if k = "positive" then "😊" else if k = "negative" then "😞" else "😐"

/-- One paragraph per sentiment kind with a positive count. -/
def geoSentimentParas (sb : List (String × ℤ)) : List Elem :=
  sb.filterMap (fun p =>
    if 0 < p.2 then
      some (Elem.para [Cell.s (sentimentIcon p.1), Cell.s p.1, Cell.i p.2])
    else none)

/-- The optional sentiment-analysis sub-block. -/
def geoSentimentBlock (o : Option (List (String × ℤ))) : List Elem :=
  match o with
  | some sb =>
    Elem.subheading "Sentiment Analysis" :: (geoSentimentParas sb ++ [Elem.spacer])
  | none => []

/-- The optional AI-visibility-summary sub-block. -/
def geoSummaryBlock (o : Option ReportGeoSummary) : List Elem :=
  match o with
  | some s =>
    [Elem.subheading "AI Visibility Summary", geoSummaryPara s, Elem.spacer] ++
    geoSentimentBlock s.sentiment_breakdown
  | none => []

/-- The GEO section. -/
def geoBlock (req : ReportRequest) : List Elem :=
  if "geo" ∈ req.include_sections then
    match req.geo_data with
    | some geo =>
      [Elem.heading "3. Generative Engine Optimization (GEO)", Elem.spacer] ++
      geoSummaryBlock geo.summary ++
      recsBlock "GEO Recommendations" geo.recommendations ++
      [Elem.pageBreak]
    | none => []
  else []

/-- The traffic-metrics paragraph. -/
def metricsPara (t : ReportTrafficData) (m : ReportTrafficMetricsD) : Elem :=
  Elem.para
    [Cell.s "Estimated Monthly Visits: ", Cell.i (m.monthly_visits.getD 0),
     Cell.s "Range: ", Cell.i (m.monthly_visits_min.getD 0),
     Cell.i (m.monthly_visits_max.getD 0),
     Cell.s "Average Visit Duration: ", Cell.s (m.avg_visit_duration.getD "N/A"),
     Cell.s "Pages per Visit: ",
     (match m.pages_per_visit with
      | some v => Cell.q v
      | none => Cell.s "N/A"),
     Cell.s "Bounce Rate: ", Cell.q ((m.bounce_rate.getD 0) * 100),
     Cell.s "Confidence Level: ", Cell.s (t.confidence_level.getD "N/A"),
     Cell.s "Growth Trend: ", Cell.s (t.growth_trend.getD "N/A")]

/-- The optional traffic-metrics sub-block. -/
def metricsBlock (t : ReportTrafficData) : List Elem :=
  match t.metrics with
  | some m => [Elem.subheading "Traffic Metrics", metricsPara t m, Elem.spacer]
  | none => []

/-- One row of the traffic-sources table. -/
def srcRow (s : ReportTrafficSourceD) : List Cell :=
  [Cell.s (s.source.getD ""), Cell.q (s.percentage.getD 0),
   Cell.i (s.estimated_visits.getD 0)]

/-- The optional traffic-sources sub-block.  The loop in the source has no
`[:5]` slice: every entry is rendered. -/
def srcsBlock (o : Option (List ReportTrafficSourceD)) : List Elem :=
  match o with
  | some srcs =>
    if srcs.isEmpty then []
    else
      [Elem.subheading "Traffic Sources",
       Elem.table (sourcesHeader :: srcs.map srcRow), Elem.spacer]
  | none => []

/-- One row of the top-keywords table (volume and cpc under Python
truthiness). -/
def kwRow (k : ReportKeywordD) : List Cell :=
  [Cell.s (k.keyword.getD ""), optIntCell k.position,
   (match k.volume with
    | some v => if v = 0 then Cell.s "N/A" else Cell.i v
    | none => Cell.s "N/A"),
   (match k.cpc with
    | some v => if v = 0 then Cell.s "N/A" else Cell.q v
    | none => Cell.s "N/A")]

/-- The optional top-keywords sub-block (top 5 rows). -/
def kwsBlock (o : Option (List ReportKeywordD)) : List Elem :=
  match o with
  | some kws =>
    if kws.isEmpty then []
    else
      [Elem.subheading "Top Keywords",
       Elem.table (kwHeader :: (kws.take 5).map kwRow), Elem.spacer]
  | none => []

/-- The traffic section (note: no closing page break in the source). -/
def trafficBlock (req : ReportRequest) : List Elem :=
  if "traffic" ∈ req.include_sections then
    match req.traffic_data with
    | some t =>
      [Elem.heading "4. Traffic Estimation", Elem.spacer] ++
      metricsBlock t ++
      srcsBlock t.traffic_sources ++
      kwsBlock t.top_keywords ++
      recsBlock "Traffic Recommendations" t.recommendations
    | none => []
  else []

/-- The closing disclaimer. -/
def footerBlock : List Elem :=
  [Elem.spacer,
   Elem.para [Cell.s "This report was generated automatically by the SEO Audit Tool."]]

/-- `create_pdf_report` from `report.py`: the full flowable list, in append
order (`now` is the formatted `datetime.now()` string). -/
def create_pdf_report (req : ReportRequest) (now : String) : List Elem :=
  titleBlock req now ++ execBlock req ++ seoBlock req ++ searchBlock req ++
  geoBlock req ++ trafficBlock req ++ footerBlock

/-- Recommendation bullets are exactly the paragraphs whose first fragment
is the fixed `"• "` prefix. -/
def isBullet (e : Elem) : Bool :=
  match e with
  | Elem.para (Cell.s v :: _) => v = "• "
  | _ => false

/-- The row-count bound the claim imposes on the two table kinds built
from a truncated list: a header plus at most 5 data rows. -/
def rowBound (rows : List (List Cell)) : Prop :=
  (rows.head? = some perfHeader → rows.length ≤ 6) ∧
  (rows.head? = some kwHeader → rows.length ≤ 6)

/-- The two-audit map exhibiting the score-`0` sort anomaly: both checks are
allow-listed, with scores `0.0` and `0.3`. -/
def c3Audits : List (String × LhAudit) :=
  [("render-blocking-resources",
    { title := some "Zero", description := none, score := some 0,
      displayValue := none, numericValue := none, details := [] }),
   ("unused-css-rules",
    { title := some "Third", description := none, score := some (mkRat 3 10),
      displayValue := none, numericValue := none, details := [] })]

/-- The three-audit witness map with scores `0.8`, `0.3` and `0.5`. -/
def c3WitnessAudits : List (String × LhAudit) :=
  [("render-blocking-resources",
    { title := some "A", description := none, score := some (mkRat 8 10),
      displayValue := none, numericValue := none, details := [] }),
   ("unused-css-rules",
    { title := some "B", description := none, score := some (mkRat 3 10),
      displayValue := none, numericValue := none, details := [] }),
   ("unused-javascript",
    { title := some "C", description := none, score := some (mkRat 5 10),
      displayValue := none, numericValue := none, details := [] })]

/-- The GEO request whose cleaned domain contains a newline. -/
def c10req : GEORequest :=
  { domain := "a\nb".toList, keywords := [], check_competitors := false }

/-- The concrete newline-free GEO witness request and its canned backend
responses. -/
def c10wreq : GEORequest :=
  { domain := "acme.com".toList, keywords := [], check_competitors := false }

/-- Canned gemini response of the C10 witness. -/
def c10wgem : List Char → List Char := fun _ => "1. acme.com is great".toList

/-- Canned chatgpt response of the C10 witness. -/
def c10wchat : List Char → List Char := fun _ => "nothing here".toList

/-- Trivial competitor extractor of the C10 witness. -/
def c10wcomp : List Char → List Char → List (List Char) := fun _ _ => []

/-- The six-channel traffic-source payload of the C8 counterexample and
witness. -/
def c8sources : List ReportTrafficSourceD :=
  [{ source := some "Organic Search", percentage := some 35, estimated_visits := some 35000 },
   { source := some "Direct", percentage := some 25, estimated_visits := some 25000 },
   { source := some "Referral", percentage := some 15, estimated_visits := some 15000 },
   { source := some "Social Media", percentage := some 10, estimated_visits := some 10000 },
   { source := some "Paid Search", percentage := some 9, estimated_visits := some 9000 },
   { source := some "Email", percentage := some 6, estimated_visits := some 6000 }]

/-- The traffic payload carrying the six sources. -/
def c8traffic : ReportTrafficData :=
  { metrics := none, traffic_sources := some c8sources, top_keywords := none,
    recommendations := none, confidence_level := none, growth_trend := none }

/-- The report request of the C8 counterexample and witness. -/
def c8req : ReportRequest :=
  { url := "https://example.com/", seo_data := none, search_data := none,
    geo_data := none, traffic_data := some c8traffic,
    include_sections := ["traffic"], company_name := none }

/-! ## Theorems -/

theorem lowerChar_idem (c : Char) : lowerChar (lowerChar c) = lowerChar c := by
  unfold lowerChar
  split
  · next h =>
    have hv : (c.toNat + 32).isValidChar := by
      constructor
      omega
    rw [Char.ofNat, dif_pos hv]
    have h2 : (Char.ofNatAux (c.toNat + 32) hv).toNat = c.toNat + 32 := rfl
    rw [if_neg]
    rw [h2]
    omega
  · rfl

theorem stripWs_sublist (l : List Char) : List.Sublist (stripWs l) l := by
  have h1 : List.Sublist (l.dropWhile isPySpace) l := List.dropWhile_sublist _
  have h2 : List.Sublist ((l.dropWhile isPySpace).reverse.dropWhile isPySpace)
      (l.dropWhile isPySpace).reverse := List.dropWhile_sublist _
  have h3 := h2.reverse
  rw [List.reverse_reverse] at h3
  exact h3.trans h1

theorem stripScheme_sublist (l : List Char) : List.Sublist (stripScheme l) l := by
  unfold stripScheme
  split
  · exact List.drop_sublist _ _
  · split
    · exact List.drop_sublist _ _
    · exact List.Sublist.refl l

theorem stripWww_sublist (l : List Char) : List.Sublist (stripWww l) l := by
  unfold stripWww
  split
  · exact List.drop_sublist _ _
  · exact List.Sublist.refl l

theorem rstripSlash_sublist (l : List Char) : List.Sublist (rstripSlash l) l := by
  have h2 : List.Sublist (l.reverse.dropWhile (fun c => c = '/')) l.reverse :=
    List.dropWhile_sublist _
  have h3 := h2.reverse
  rw [List.reverse_reverse] at h3
  exact h3

theorem clean_domain_sublist (d : List Char) :
    List.Sublist (clean_domain d) (lowerStr d) :=
  (rstripSlash_sublist _).trans ((stripWww_sublist _).trans
    ((stripScheme_sublist _).trans (stripWs_sublist _)))

theorem lowerStr_of_clean (d : List Char) :
    lowerStr (clean_domain d) = clean_domain d := by
  have hall : ∀ c ∈ clean_domain d, lowerChar c = c := by
    intro c hc
    have hm : c ∈ lowerStr d := (clean_domain_sublist d).mem hc
    obtain ⟨a, _, rfl⟩ := List.mem_map.mp hm
    exact lowerChar_idem a
  calc lowerStr (clean_domain d) = (clean_domain d).map id :=
        List.map_congr_left hall
    _ = clean_domain d := List.map_id _

theorem rstripSlash_idem (l : List Char) :
    rstripSlash (rstripSlash l) = rstripSlash l := by
  unfold rstripSlash
  rw [List.reverse_reverse, List.dropWhile_idempotent]

/-- C2 (amended): `clean_domain` is idempotent on every domain whose cleaned
form is unaffected by a further whitespace strip, scheme strip and `www.`
strip — in particular on any ordinary URL carrying at most one scheme and
one `www.` prefix.  (It is not idempotent in general: see the
counterexample.) -/
theorem c2_clean_domain_idem (d : List Char)
    (h1 : stripWs (clean_domain d) = clean_domain d)
    (h2 : stripScheme (clean_domain d) = clean_domain d)
    (h3 : stripWww (clean_domain d) = clean_domain d) :
    clean_domain (clean_domain d) = clean_domain d := by
  show rstripSlash (stripWww (stripScheme (stripWs (lowerStr (clean_domain d))))) =
    clean_domain d
  rw [lowerStr_of_clean, h1, h2, h3]
  show rstripSlash (rstripSlash (stripWww (stripScheme (stripWs (lowerStr d))))) = _
  rw [rstripSlash_idem]
  rfl

/-- C2 counterexample: `clean_domain` is not idempotent as claimed — the
anchored `www.` substitution removes only one prefix, so
`clean("www.www.a") = "www.a"` while `clean("www.a") = "a"`. -/
theorem c2_counterexample :
    clean_domain (clean_domain ("www.www.a".toList)) ≠
      clean_domain ("www.www.a".toList) := by decide

/-- C2 witness: the amended idempotence applied to a concrete URL. -/
theorem c2_witness :
    (stripWs (clean_domain ("HTTP://www.Example.com/".toList)) =
        clean_domain ("HTTP://www.Example.com/".toList) ∧
      stripScheme (clean_domain ("HTTP://www.Example.com/".toList)) =
        clean_domain ("HTTP://www.Example.com/".toList) ∧
      stripWww (clean_domain ("HTTP://www.Example.com/".toList)) =
        clean_domain ("HTTP://www.Example.com/".toList)) ∧
    clean_domain (clean_domain ("HTTP://www.Example.com/".toList)) =
      clean_domain ("HTTP://www.Example.com/".toList) :=
  ⟨⟨by decide, by decide, by decide⟩,
   c2_clean_domain_idem _ (by decide) (by decide) (by decide)⟩

/-- C4: the Core Web Vitals categorizer returns `good` for values up to
`good_max`, `needs_improvement` up to `needs_improvement_max`, else `poor`,
with thresholds LCP 2.5/4.0, FID 100/300, CLS 0.1/0.25, FCP 1.8/3.0,
TTFB 0.8/1.8; in particular LCP 2.4 and 2.5 are `good`, 3.0 and 4.0 are
`needs_improvement`, 5.0 is `poor`. -/
theorem c4_categorize_metric :
    (∀ v : ℚ, categorize_metric v "lcp" =
      if v ≤ 5/2 then "good" else if v ≤ 4 then "needs_improvement" else "poor") ∧
    (∀ v : ℚ, categorize_metric v "fid" =
      if v ≤ 100 then "good" else if v ≤ 300 then "needs_improvement" else "poor") ∧
    (∀ v : ℚ, categorize_metric v "cls" =
      if v ≤ 1/10 then "good" else if v ≤ 1/4 then "needs_improvement" else "poor") ∧
    (∀ v : ℚ, categorize_metric v "fcp" =
      if v ≤ 9/5 then "good" else if v ≤ 3 then "needs_improvement" else "poor") ∧
    (∀ v : ℚ, categorize_metric v "ttfb" =
      if v ≤ 4/5 then "good" else if v ≤ 9/5 then "needs_improvement" else "poor") ∧
    categorize_metric (12/5) "lcp" = "good" ∧
    categorize_metric (5/2) "lcp" = "good" ∧
    categorize_metric 3 "lcp" = "needs_improvement" ∧
    categorize_metric 4 "lcp" = "needs_improvement" ∧
    categorize_metric 5 "lcp" = "poor" :=
  ⟨fun _ => rfl, fun _ => rfl, fun _ => rfl, fun _ => rfl, fun _ => rfl,
   by norm_num [categorize_metric, cwv_thresholds],
   by norm_num [categorize_metric, cwv_thresholds],
   by norm_num [categorize_metric, cwv_thresholds],
   by norm_num [categorize_metric, cwv_thresholds],
   by norm_num [categorize_metric, cwv_thresholds]⟩

theorem extract_rank_go_eq (brand : List Char) (lines : List (List Char)) (i : ℕ) :
    extract_rank_go brand lines i =
      match lines.findIdx? (fun l => containsSub (lowerStr l) (lowerStr brand)) with
      | none => none
      | some j =>
        match parseRankNum (lines.getD j []) with
        | some n => some n
        | none => some (i + j + 1) := by
  induction lines generalizing i with
  | nil => rfl
  | cons line rest ih =>
    rw [extract_rank_go, List.findIdx?_cons]
    cases h : containsSub (lowerStr line) (lowerStr brand) with
    | true =>
      simp only [h, if_true, List.getD_cons_zero]
    | false =>
      simp only [h, Bool.false_eq_true, if_false, ih, List.findIdx?_succ]
      cases hr : List.findIdx? (fun l => containsSub (lowerStr l) (lowerStr brand)) rest with
      | none => simp [hr]
      | some j =>
        simp only [hr, Option.map_some', List.getD_cons_succ]
        cases parseRankNum (rest.getD j []) with
        | none => simp only [Option.some.injEq]; omega
        | some n => rfl

/-- C5 counterexample: the code's rank regex tolerates whitespace around
the digits, so on the line `" 2. widgets"` the code returns the captured
`2` while the claim as stated (line must start with the digits) prescribes
the 1-based line index `1`. -/
theorem c5_counterexample :
    extract_rank (" 2. widgets".toList) ("widgets".toList) = some 2 ∧
    extract_rank_claim (" 2. widgets".toList) ("widgets".toList) = some 1 := by
  constructor
  · decide
  · decide

/-- C5 (amended): rank extraction finds the first line containing the brand
case-insensitively; when the line matches optional whitespace, digits,
optional whitespace and a separator `.`/`-`/`)`, the captured number is the
rank, otherwise the 1-based line index is; absent when no line contains the
brand.  The claim's two examples evaluate as stated. -/
theorem c5_extract_rank (text brand : List Char) :
    extract_rank text brand = extract_rank_amended text brand ∧
    extract_rank ("1. Acme\n2. Widgets".toList) ("Widgets".toList) = some 2 ∧
    extract_rank ("Acme and Widgets are great".toList) ("Widgets".toList) = some 1 := by
  refine ⟨?_, by decide, by decide⟩
  unfold extract_rank extract_rank_amended
  rw [extract_rank_go_eq]
  cases (splitNl text).findIdx? (fun l => containsSub (lowerStr l) (lowerStr brand)) with
  | none => rfl
  | some j =>
    cases parseRankNum ((splitNl text).getD j []) <;> simp

/-- C1: when the brand occurs case-insensitively in the text, the sentiment
classifier compares the number of positive-list and negative-list words in
the ±100-character window around the first occurrence, returning `positive`
or `negative` for a strict majority and `neutral` on any tie; in
particular 2 positive hits against 0 negative hits yield `positive`. -/
theorem c1_extract_sentiment (text brand : List Char)
    (h : containsSub (lowerStr text) (lowerStr brand) = true) :
    extract_sentiment text brand =
      (if negHits (sentimentWindow text brand) < posHits (sentimentWindow text brand)
       then "positive"
       else if posHits (sentimentWindow text brand) < negHits (sentimentWindow text brand)
       then "negative"
       else "neutral") ∧
    (posHits (sentimentWindow text brand) = 2 →
     negHits (sentimentWindow text brand) = 0 →
     extract_sentiment text brand = "positive") := by
  obtain ⟨p, hp⟩ : ∃ p, findSub (lowerStr brand) (lowerStr text) = some p :=
    Option.isSome_iff_exists.mp h
  have e : extract_sentiment text brand =
      (if negHits (sentimentWindow text brand) < posHits (sentimentWindow text brand)
       then "positive"
       else if posHits (sentimentWindow text brand) < negHits (sentimentWindow text brand)
       then "negative"
       else "neutral") := by
    unfold extract_sentiment sentimentWindow posHits negHits
    simp only [hp]
  refine ⟨e, fun h2 h3 => ?_⟩
  rw [e, h2, h3]
  norm_num

/-- C1 witness: a concrete probe with 2 positive hits and 0 negative hits
in the window, classified `positive`. -/
theorem c1_witness :
    containsSub (lowerStr ("acme is the best and great".toList))
        (lowerStr ("acme".toList)) = true ∧
    posHits (sentimentWindow ("acme is the best and great".toList)
        ("acme".toList)) = 2 ∧
    negHits (sentimentWindow ("acme is the best and great".toList)
        ("acme".toList)) = 0 ∧
    extract_sentiment ("acme is the best and great".toList) ("acme".toList) =
      "positive" :=
  ⟨by decide, by decide, by decide,
   (c1_extract_sentiment _ _ (by decide)).2 (by decide) (by decide)⟩

theorem lookup_mem (k : String) (l : List (String × LhAudit)) (a : LhAudit)
    (h : l.lookup k = some a) : (k, a) ∈ l := by
  induction l with
  | nil => simp [List.lookup] at h
  | cons p t ih =>
    obtain ⟨k', b⟩ := p
    rw [List.lookup] at h
    cases hk : k == k' with
    | true =>
      rw [hk] at h
      obtain rfl := Option.some.inj h
      have hkk : k = k' := by simpa using hk
      subst hkk
      exact List.mem_cons_self _ _
    | false =>
      rw [hk] at h
      exact List.mem_cons_of_mem _ (ih h)

theorem orderedInsert_congr {α : Type} (r₁ r₂ : α → α → Prop)
    [DecidableRel r₁] [DecidableRel r₂] (a : α) (l : List α)
    (h : ∀ b ∈ l, (r₁ a b ↔ r₂ a b)) :
    List.orderedInsert r₁ a l = List.orderedInsert r₂ a l := by
  induction l with
  | nil => rfl
  | cons b t ih =>
    rw [List.orderedInsert, List.orderedInsert]
    by_cases hb : r₁ a b
    · rw [if_pos hb, if_pos ((h b (List.mem_cons_self b t)).mp hb)]
    · rw [if_neg hb, if_neg (fun hc => hb ((h b (List.mem_cons_self b t)).mpr hc)),
        ih (fun x hx => h x (List.mem_cons_of_mem b hx))]

theorem insertionSort_congr {α : Type} (r₁ r₂ : α → α → Prop)
    [DecidableRel r₁] [DecidableRel r₂] (l : List α)
    (h : ∀ x ∈ l, ∀ y ∈ l, (r₁ x y ↔ r₂ x y)) :
    List.insertionSort r₁ l = List.insertionSort r₂ l := by
  induction l with
  | nil => rfl
  | cons a t ih =>
    rw [List.insertionSort, List.insertionSort,
      ih (fun x hx y hy => h x (List.mem_cons_of_mem a hx) y (List.mem_cons_of_mem a hy))]
    exact orderedInsert_congr r₁ r₂ a _ (fun b hb =>
      h a (List.mem_cons_self a t) b
        (List.mem_cons_of_mem a ((List.perm_insertionSort r₂ t).mem_iff.mp hb)))

theorem candidates_score (audits : List (String × LhAudit))
    (h : ∀ p ∈ audits, p.2.score ≠ some 0) :
    ∀ o ∈ opportunityCandidates audits, ∃ s : ℚ, o.score = some s ∧ s ≠ 0 := by
  intro o ho
  unfold opportunityCandidates at ho
  obtain ⟨id, _, hmk⟩ := List.mem_filterMap.mp ho
  cases hl : audits.lookup id with
  | none => simp only [hl] at hmk; exact absurd hmk (by simp)
  | some a =>
    simp only [hl] at hmk
    cases hs : a.score with
    | none => simp only [hs] at hmk; exact absurd hmk (by simp)
    | some s =>
      simp only [hs] at hmk
      by_cases hlt : s < 1
      · rw [if_pos hlt] at hmk
        obtain rfl : mkOpportunity id a s = o := Option.some.inj hmk
        refine ⟨s, rfl, fun h0 => ?_⟩
        subst h0
        exact h _ (lookup_mem id audits a hl) hs
      · rw [if_neg hlt] at hmk
        simp at hmk

theorem candidates_eq (audits : List (String × LhAudit)) :
    (opportunity_audits.filterMap (fun audit_id =>
      (audits.lookup audit_id).bind (fun a =>
        a.score.bind (fun s =>
          if s < 1 then
            some { title := a.title.getD audit_id
                   description := a.description.getD ""
                   score := some s
                   savings := some (a.displayValue.getD "")
                   priority := if s < mkRat 1 2 then "high" else "medium" }
          else none)))) = opportunityCandidates audits := by
  unfold opportunityCandidates
  refine List.filterMap_congr (fun id _ => ?_)
  cases audits.lookup id with
  | none => rfl
  | some a =>
    simp only [Option.some_bind]
    cases a.score with
    | none => rfl
    | some s =>
      simp only [Option.some_bind]
      rfl

theorem pyOr1_eq_getD (o : Opportunity) (s : ℚ) (h1 : o.score = some s)
    (h2 : s ≠ 0) : pyOr1 o.score = o.score.getD 1 := by
  rw [h1]
  simp [pyOr1, h2]

/-- C3 (amended): opportunity extraction agrees with the claim's
description — inclusion iff the score is present and `< 1`, priority `high`
iff score `< 0.5`, list sorted ascending by score with an absent score as
`1` — for every audit map in which no score equals `0`; a score of exactly
`0.0` is falsy in Python, so `x.score or 1` sorts such entries with key `1`
(last), breaking the claimed order (see the counterexample). -/
theorem c3_extract_opportunities (audits : List (String × LhAudit))
    (h : ∀ p ∈ audits, p.2.score ≠ some 0) :
    extract_opportunities audits = extractOpportunitiesSpec audits := by
  unfold extract_opportunities extractOpportunitiesSpec
  rw [candidates_eq]
  refine insertionSort_congr _ _ _ (fun x hx y hy => ?_)
  obtain ⟨sx, hsx, hsx0⟩ := candidates_score audits h x hx
  obtain ⟨sy, hsy, hsy0⟩ := candidates_score audits h y hy
  rw [pyOr1_eq_getD x sx hsx hsx0, pyOr1_eq_getD y sy hsy hsy0]

/-- C3 counterexample: with scores `0.0` and `0.3` the code returns the
scores in order `[0.3, 0.0]` — not ascending by score as claimed — because
`0.0 or 1` evaluates to `1`. -/
theorem c3_counterexample :
    (extract_opportunities c3Audits).map (fun o => o.score) =
      [some (mkRat 3 10), some 0] ∧
    (extractOpportunitiesSpec c3Audits).map (fun o => o.score) =
      [some 0, some (mkRat 3 10)] ∧
    extract_opportunities c3Audits ≠ extractOpportunitiesSpec c3Audits := by
  refine ⟨by decide, by decide, by decide⟩

/-- C3 witness: the amended equivalence applied to a concrete zero-free
audit map. -/
theorem c3_witness :
    (∀ p ∈ c3WitnessAudits, p.2.score ≠ some 0) ∧
    extract_opportunities c3WitnessAudits = extractOpportunitiesSpec c3WitnessAudits :=
  ⟨by decide, c3_extract_opportunities _ (by decide)⟩

/-- C6 counterexample: the doubling condition is a substring test, not a
suffix test — for `"abc.gov.example"` (which merely contains `.gov`) the
code doubles the base while the claim (ends in `.gov`/`.edu`) forbids it. -/
theorem c6_counterexample :
    (estimate_traffic_metrics ("abc.gov.example".toList) 10000 2 0 2 3).monthly_visits
      = 20000 ∧
    trafficBaseSpec ("abc.gov.example".toList) 10000 = 10000 := by
  constructor
  · show ⌊trafficBase ("abc.gov.example".toList) 10000⌋ = 20000
    have h1 : (containsSub ("abc.gov.example".toList) (".gov".toList) ||
        containsSub ("abc.gov.example".toList) (".edu".toList)) = true := by decide
    have h2 : ¬ ("abc.gov.example".toList.length < 10) := by decide
    simp only [trafficBase, h1, if_true, if_neg h2]
    norm_num
  · have h1 : (endsWith ("abc.gov.example".toList) (".gov".toList) ||
        endsWith ("abc.gov.example".toList) (".edu".toList)) = false := by decide
    have h2 : ¬ ("abc.gov.example".toList.length < 10) := by decide
    simp only [trafficBaseSpec, h1, Bool.false_eq_true, if_false, if_neg h2]
    norm_num

/-- C6 (amended): for a base draw in [10000, 500000], the reported visits
figure is the base multiplied by 2 exactly when the domain CONTAINS `.gov`
or `.edu` (a substring test, not a suffix test), by 1.5 exactly when the
domain is shorter than 10 characters; the min and max are 70% and 130% of
that figure (floored), and min ≤ visits ≤ max always holds. -/
theorem c6_estimate_traffic_metrics (domain : List Char) (base : ℕ)
    (durM durS : ℕ) (pages bounce : ℚ)
    (hb1 : 10000 ≤ base) (hb2 : base ≤ 500000) :
    (estimate_traffic_metrics domain base durM durS pages bounce).monthly_visits =
      ⌊trafficBase domain base⌋ ∧
    (estimate_traffic_metrics domain base durM durS pages bounce).monthly_visits_min =
      ⌊trafficBase domain base * (7/10)⌋ ∧
    (estimate_traffic_metrics domain base durM durS pages bounce).monthly_visits_max =
      ⌊trafficBase domain base * (13/10)⌋ ∧
    trafficBase domain base =
      ((base : ℚ) *
        (if (containsSub domain (".gov".toList) ||
             containsSub domain (".edu".toList)) = true then 2 else 1)) *
      (if domain.length < 10 then 3/2 else 1) ∧
    (estimate_traffic_metrics domain base durM durS pages bounce).monthly_visits_min ≤
      (estimate_traffic_metrics domain base durM durS pages bounce).monthly_visits ∧
    (estimate_traffic_metrics domain base durM durS pages bounce).monthly_visits ≤
      (estimate_traffic_metrics domain base durM durS pages bounce).monthly_visits_max := by
  have h0 : (0:ℚ) ≤ trafficBase domain base := by
    simp only [trafficBase]
    split <;> split <;> positivity
  refine ⟨rfl, rfl, rfl, ?_, ?_, ?_⟩
  · simp only [trafficBase]
    by_cases hc : (containsSub domain (".gov".toList) ||
        containsSub domain (".edu".toList)) = true <;>
      by_cases hl : domain.length < 10 <;>
        simp [hc, hl] <;> try ring
  · show ⌊trafficBase domain base * (7/10)⌋ ≤ ⌊trafficBase domain base⌋
    exact Int.floor_le_floor (by linarith)
  · show ⌊trafficBase domain base⌋ ≤ ⌊trafficBase domain base * (13/10)⌋
    exact Int.floor_le_floor (by linarith)

/-- C6 witness: the amended statement applied to a concrete domain and a
base draw inside the sampling range. -/
theorem c6_witness :
    (10000 ≤ 10000 ∧ 10000 ≤ 500000) ∧
    ((estimate_traffic_metrics ("example.com".toList) 10000 3 30 2 3).monthly_visits =
        ⌊trafficBase ("example.com".toList) 10000⌋ ∧
      (estimate_traffic_metrics ("example.com".toList) 10000 3 30 2 3).monthly_visits_min =
        ⌊trafficBase ("example.com".toList) 10000 * (7/10)⌋ ∧
      (estimate_traffic_metrics ("example.com".toList) 10000 3 30 2 3).monthly_visits_max =
        ⌊trafficBase ("example.com".toList) 10000 * (13/10)⌋ ∧
      trafficBase ("example.com".toList) 10000 =
        (((10000:ℕ) : ℚ) *
          (if (containsSub ("example.com".toList) (".gov".toList) ||
               containsSub ("example.com".toList) (".edu".toList)) = true then 2 else 1)) *
        (if ("example.com".toList).length < 10 then 3/2 else 1) ∧
      (estimate_traffic_metrics ("example.com".toList) 10000 3 30 2 3).monthly_visits_min ≤
        (estimate_traffic_metrics ("example.com".toList) 10000 3 30 2 3).monthly_visits ∧
      (estimate_traffic_metrics ("example.com".toList) 10000 3 30 2 3).monthly_visits ≤
        (estimate_traffic_metrics ("example.com".toList) 10000 3 30 2 3).monthly_visits_max) :=
  ⟨⟨by norm_num, by norm_num⟩,
   c6_estimate_traffic_metrics _ _ _ _ _ _ (by norm_num) (by norm_num)⟩

theorem roundTo1_err (x : ℚ) : |roundTo 1 x - x| ≤ 1/20 := by
  unfold roundTo
  rw [pow_one]
  have h := abs_sub_round (x * 10)
  rw [show ((round (x * 10) : ℚ)/10 - x) = -((x * 10 - (round (x * 10) : ℚ))/10) by ring,
    abs_neg, abs_div]
  rw [show |(10:ℚ)| = 10 by norm_num]
  linarith

/-- C9 (amended): for weights in their sampling ranges, the reported
percentages (each rounded to one decimal) sum to 100 within 0.3 — six
roundings of at most 0.05 each — not within the claimed 0.1 (see the
counterexample). -/
theorem c9_estimate_traffic_sources (v : ℤ) (w1 w2 w3 w4 w5 w6 : ℚ)
    (h1 : 35/100 ≤ w1 ∧ w1 ≤ 60/100) (h2 : 15/100 ≤ w2 ∧ w2 ≤ 35/100)
    (h3 : 5/100 ≤ w3 ∧ w3 ≤ 20/100) (h4 : 3/100 ≤ w4 ∧ w4 ≤ 15/100)
    (h5 : 0 ≤ w5 ∧ w5 ≤ 15/100) (h6 : 1/100 ≤ w6 ∧ w6 ≤ 8/100) :
    |sumPercent (estimate_traffic_sources v w1 w2 w3 w4 w5 w6) - 100| ≤ 3/10 := by
  have hT : (0:ℚ) < w1 + (w2 + (w3 + (w4 + (w5 + w6)))) := by
    have := h1.1
    have := h2.1
    have := h3.1
    have := h4.1
    have := h5.1
    have := h6.1
    linarith
  have hsum : sumPercent (estimate_traffic_sources v w1 w2 w3 w4 w5 w6) =
      roundTo 1 (w1 / (w1 + (w2 + (w3 + (w4 + (w5 + w6))))) * 100) +
      (roundTo 1 (w2 / (w1 + (w2 + (w3 + (w4 + (w5 + w6))))) * 100) +
      (roundTo 1 (w3 / (w1 + (w2 + (w3 + (w4 + (w5 + w6))))) * 100) +
      (roundTo 1 (w4 / (w1 + (w2 + (w3 + (w4 + (w5 + w6))))) * 100) +
      (roundTo 1 (w5 / (w1 + (w2 + (w3 + (w4 + (w5 + w6))))) * 100) +
      (roundTo 1 (w6 / (w1 + (w2 + (w3 + (w4 + (w5 + w6))))) * 100) + 0))))) := by
    simp [estimate_traffic_sources, sumPercent]
  have hx : w1 / (w1 + (w2 + (w3 + (w4 + (w5 + w6))))) * 100 +
      w2 / (w1 + (w2 + (w3 + (w4 + (w5 + w6))))) * 100 +
      w3 / (w1 + (w2 + (w3 + (w4 + (w5 + w6))))) * 100 +
      w4 / (w1 + (w2 + (w3 + (w4 + (w5 + w6))))) * 100 +
      w5 / (w1 + (w2 + (w3 + (w4 + (w5 + w6))))) * 100 +
      w6 / (w1 + (w2 + (w3 + (w4 + (w5 + w6))))) * 100 = 100 := by
    field_simp
    ring
  have b1 := roundTo1_err (w1 / (w1 + (w2 + (w3 + (w4 + (w5 + w6))))) * 100)
  have b2 := roundTo1_err (w2 / (w1 + (w2 + (w3 + (w4 + (w5 + w6))))) * 100)
  have b3 := roundTo1_err (w3 / (w1 + (w2 + (w3 + (w4 + (w5 + w6))))) * 100)
  have b4 := roundTo1_err (w4 / (w1 + (w2 + (w3 + (w4 + (w5 + w6))))) * 100)
  have b5 := roundTo1_err (w5 / (w1 + (w2 + (w3 + (w4 + (w5 + w6))))) * 100)
  have b6 := roundTo1_err (w6 / (w1 + (w2 + (w3 + (w4 + (w5 + w6))))) * 100)
  rw [hsum]
  rw [abs_le] at b1 b2 b3 b4 b5 b6 ⊢
  constructor
  · linarith
  · linarith

/-- C9 counterexample: six in-range weights (already normalized, so they
are their own percentages ×100) whose rounded percentages sum to 99.8 —
outside the claimed 0.1 tolerance around 100. -/
theorem c9_counterexample :
    ((35/100 ≤ (3504/10000 : ℚ) ∧ (3504/10000 : ℚ) ≤ 60/100) ∧
     (15/100 ≤ (2504/10000 : ℚ) ∧ (2504/10000 : ℚ) ≤ 35/100) ∧
     (5/100 ≤ (1504/10000 : ℚ) ∧ (1504/10000 : ℚ) ≤ 20/100) ∧
     (3/100 ≤ (904/10000 : ℚ) ∧ (904/10000 : ℚ) ≤ 15/100) ∧
     ((0:ℚ) ≤ (880/10000 : ℚ) ∧ (880/10000 : ℚ) ≤ 15/100) ∧
     (1/100 ≤ (704/10000 : ℚ) ∧ (704/10000 : ℚ) ≤ 8/100)) ∧
    sumPercent (estimate_traffic_sources 100000 (3504/10000) (2504/10000)
      (1504/10000) (904/10000) (880/10000) (704/10000)) = 499/5 ∧
    ¬ (|(499/5 : ℚ) - 100| ≤ 1/10) := by
  refine ⟨⟨⟨by norm_num, by norm_num⟩, ⟨by norm_num, by norm_num⟩,
    ⟨by norm_num, by norm_num⟩, ⟨by norm_num, by norm_num⟩,
    ⟨by norm_num, by norm_num⟩, ⟨by norm_num, by norm_num⟩⟩, ?_, ?_⟩
  · norm_num [estimate_traffic_sources, sumPercent, roundTo, round_eq]
  · rw [show ((499:ℚ)/5 - 100) = -(1/5) by norm_num, abs_neg,
      abs_of_nonneg (by norm_num : (0:ℚ) ≤ 1/5)]
    norm_num

/-- C9 witness: the amended 0.3 bound applied to concrete in-range
weights. -/
theorem c9_witness :
    |sumPercent (estimate_traffic_sources 100000 (40/100) (20/100) (10/100)
      (5/100) (5/100) (5/100)) - 100| ≤ 3/10 :=
  c9_estimate_traffic_sources 100000 _ _ _ _ _ _
    ⟨by norm_num, by norm_num⟩ ⟨by norm_num, by norm_num⟩
    ⟨by norm_num, by norm_num⟩ ⟨by norm_num, by norm_num⟩
    ⟨by norm_num, by norm_num⟩ ⟨by norm_num, by norm_num⟩

/-- C7: with no PageSpeed credential the analyze operation ignores the
fetch outcome entirely (so it never surfaces an error), returning the
synthetic demo payload, whose four scores lie in 0–100 for draws in the
sampled ranges and whose recommendation list is non-empty. -/
theorem c7_analyze_demo (fetch : FetchResult) (d : DemoDraws) (url strategy : String)
    (hp : 60 ≤ d.perf ∧ d.perf ≤ 95) (hs : 70 ≤ d.seo ∧ d.seo ≤ 95)
    (ha : 65 ≤ d.acc ∧ d.acc ≤ 90) (hb : 75 ≤ d.best ∧ d.best ≤ 98) :
    ∃ r : SEOHealthResponse,
      analyze_seo_health "" fetch d url strategy = Except.ok r ∧
      (∀ v, r.performance_score = some v → 0 ≤ v ∧ v ≤ 100) ∧
      (∀ v, r.seo_score = some v → 0 ≤ v ∧ v ≤ 100) ∧
      (∀ v, r.accessibility_score = some v → 0 ≤ v ∧ v ≤ 100) ∧
      (∀ v, r.best_practices_score = some v → 0 ≤ v ∧ v ≤ 100) ∧
      r.recommendations ≠ [] := by
  refine ⟨get_demo_seo_data url strategy d, rfl, ?_, ?_, ?_, ?_, ?_⟩
  · intro v hv
    simp only [get_demo_seo_data] at hv
    obtain rfl := Option.some.inj hv
    constructor <;> omega
  · intro v hv
    simp only [get_demo_seo_data] at hv
    obtain rfl := Option.some.inj hv
    constructor <;> omega
  · intro v hv
    simp only [get_demo_seo_data] at hv
    obtain rfl := Option.some.inj hv
    constructor <;> omega
  · intro v hv
    simp only [get_demo_seo_data] at hv
    obtain rfl := Option.some.inj hv
    constructor <;> omega
  · simp [get_demo_seo_data]

/-- C7 witness: the no-credential analyze call on a concrete request and
concrete in-range draws. -/
theorem c7_witness :
    ((60 ≤ 60 ∧ 60 ≤ 95) ∧ (70 ≤ 70 ∧ 70 ≤ 95) ∧
     (65 ≤ 65 ∧ 65 ≤ 90) ∧ (75 ≤ 75 ∧ 75 ≤ 98)) ∧
    (∃ r : SEOHealthResponse,
      analyze_seo_health "" FetchResult.timeout
        { perf := 60, seo := 70, acc := 65, best := 75, lcp := 2,
          lcpCat := "good", fid := 50, fidCat := "good", cls := 0,
          clsCat := "good", fcp := 1, ttfb := 1 }
        "https://example.com" "mobile" = Except.ok r ∧
      (∀ v, r.performance_score = some v → 0 ≤ v ∧ v ≤ 100) ∧
      (∀ v, r.seo_score = some v → 0 ≤ v ∧ v ≤ 100) ∧
      (∀ v, r.accessibility_score = some v → 0 ≤ v ∧ v ≤ 100) ∧
      (∀ v, r.best_practices_score = some v → 0 ≤ v ∧ v ≤ 100) ∧
      r.recommendations ≠ []) :=
  ⟨⟨⟨by decide, by decide⟩, ⟨by decide, by decide⟩,
    ⟨by decide, by decide⟩, ⟨by decide, by decide⟩⟩,
   c7_analyze_demo FetchResult.timeout _ _ _
     ⟨by decide, by decide⟩ ⟨by decide, by decide⟩
     ⟨by decide, by decide⟩ ⟨by decide, by decide⟩⟩

theorem lowerChar_nl (c : Char) : lowerChar c = '\n' ↔ c = '\n' := by
  unfold lowerChar
  split
  · next h =>
    constructor
    · intro he
      exfalso
      have hv : (c.toNat + 32).isValidChar := by
        constructor
        omega
      have ht : (Char.ofNat (c.toNat + 32)).toNat = c.toNat + 32 := by
        rw [Char.ofNat, dif_pos hv]
        rfl
      rw [he] at ht
      have h10 : ('\n').toNat = 10 := rfl
      rw [h10] at ht
      omega
    · intro he
      subst he
      exact absurd h (by decide)
  · exact Iff.rfl

theorem startsWith_nil (l : List Char) : startsWith l [] = true := by
  cases l <;> rfl

theorem startsWith_containsSub (l pat : List Char)
    (h : startsWith l pat = true) : containsSub l pat = true := by
  cases l with
  | nil => simp [containsSub, findSub, h]
  | cons c t => simp [containsSub, findSub, h]

theorem containsSub_cons (c : Char) (t pat : List Char) :
    containsSub (c :: t) pat = (startsWith (c :: t) pat || containsSub t pat) := by
  unfold containsSub
  rw [findSub]
  cases h : startsWith (c :: t) pat
  · simp [h]
  · simp [h]

theorem splitNl_head (t : List Char) :
    ∃ r, splitNl t = (t.takeWhile (fun c => !(c = '\n'))) :: r := by
  induction t with
  | nil => exact ⟨[], rfl⟩
  | cons c t ih =>
    by_cases hc : c = '\n'
    · subst hc
      exact ⟨splitNl t, by simp [splitNl, List.takeWhile_cons]⟩
    · obtain ⟨r, hr⟩ := ih
      refine ⟨r, ?_⟩
      rw [splitNl, if_neg hc, hr, List.takeWhile_cons]
      simp [hc]

theorem startsWith_takeWhile (pat : List Char) (hnl : '\n' ∉ pat) :
    ∀ t : List Char, startsWith t pat = true →
      startsWith (t.takeWhile (fun c => !(c = '\n'))) pat = true := by
  induction pat with
  | nil => intro t _; exact startsWith_nil _
  | cons d p ih =>
    intro t h
    cases t with
    | nil => exact absurd h (by simp [startsWith])
    | cons c t' =>
      rw [startsWith, Bool.and_eq_true] at h
      obtain ⟨h1, h2⟩ := h
      have hcd : c = d := by simpa using h1
      subst hcd
      have hcnl : ¬ (c = '\n') := fun he => hnl (he ▸ List.mem_cons_self c p)
      have hih := ih (fun hm => hnl (List.mem_cons_of_mem _ hm)) t' h2
      rw [List.takeWhile_cons]
      simp [hcnl, startsWith, hih]

theorem exists_line_contains (t pat : List Char) (hnl : '\n' ∉ pat)
    (h : containsSub t pat = true) :
    ∃ l ∈ splitNl t, containsSub l pat = true := by
  induction t with
  | nil => exact ⟨[], by simp [splitNl], h⟩
  | cons c t ih =>
    rw [containsSub_cons, Bool.or_eq_true] at h
    rcases h with hs | hc
    · obtain ⟨r, hr⟩ := splitNl_head (c :: t)
      exact ⟨(c :: t).takeWhile (fun x => !(x = '\n')),
        hr ▸ List.mem_cons_self _ _,
        startsWith_containsSub _ _ (startsWith_takeWhile pat hnl _ hs)⟩
    · obtain ⟨l, hl, hcont⟩ := ih hc
      by_cases hcn : c = '\n'
      · subst hcn
        refine ⟨l, ?_, hcont⟩
        rw [splitNl, if_pos rfl]
        exact List.mem_cons_of_mem _ hl
      · cases hsp : splitNl t with
        | nil => rw [hsp] at hl; simp at hl
        | cons h0 r =>
          rw [hsp] at hl
          have heq : splitNl (c :: t) = (c :: h0) :: r := by
            rw [splitNl, if_neg hcn, hsp]
          cases hl with
          | head =>
            refine ⟨c :: l, heq ▸ List.mem_cons_self _ _, ?_⟩
            rw [containsSub_cons, Bool.or_eq_true]
            exact Or.inr hcont
          | tail _ hmem =>
            exact ⟨l, heq ▸ List.mem_cons_of_mem _ hmem, hcont⟩

theorem splitNl_lowerStr (t : List Char) :
    splitNl (lowerStr t) = (splitNl t).map lowerStr := by
  induction t with
  | nil => rfl
  | cons c t ih =>
    show splitNl (lowerChar c :: lowerStr t) = _
    by_cases hc : c = '\n'
    · subst hc
      have hl : lowerChar '\n' = '\n' := by decide
      rw [hl, splitNl, if_pos rfl, ih, splitNl, if_pos rfl]
      simp [lowerStr]
    · have hlc : ¬ (lowerChar c = '\n') := fun h => hc ((lowerChar_nl c).mp h)
      obtain ⟨r, hr⟩ := splitNl_head t
      rw [splitNl, if_neg hlc, ih, hr]
      rw [splitNl, if_neg hc, hr]
      simp [lowerStr]

theorem extract_rank_go_isSome (brand : List Char) :
    ∀ (lines : List (List Char)) (i : ℕ),
      (∃ l ∈ lines, containsSub (lowerStr l) (lowerStr brand) = true) →
      (extract_rank_go brand lines i).isSome = true := by
  intro lines
  induction lines with
  | nil =>
    intro i h
    obtain ⟨l, hl, _⟩ := h
    simp at hl
  | cons line rest ih =>
    intro i h
    rw [extract_rank_go]
    by_cases hc : containsSub (lowerStr line) (lowerStr brand) = true
    · rw [if_pos hc]
      cases parseRankNum line <;> rfl
    · rw [if_neg hc]
      obtain ⟨l, hl, hcont⟩ := h
      cases hl with
      | head => exact absurd hcont hc
      | tail _ hm => exact ih (i + 1) ⟨l, hm, hcont⟩

theorem extract_rank_isSome (text brand : List Char)
    (hm : containsSub (lowerStr text) (lowerStr brand) = true)
    (hnl : '\n' ∉ brand) : (extract_rank text brand).isSome = true := by
  have hnl2 : '\n' ∉ lowerStr brand := by
    intro hmem
    obtain ⟨a, ha, he⟩ := List.mem_map.mp hmem
    exact hnl ((lowerChar_nl a).mp he ▸ ha)
  obtain ⟨ll, hll, hcont⟩ := exists_line_contains (lowerStr text) (lowerStr brand) hnl2 hm
  rw [splitNl_lowerStr] at hll
  obtain ⟨l, hl, rfl⟩ := List.mem_map.mp hll
  exact extract_rank_go_isSome brand (splitNl text) 0 ⟨l, hl, hcont⟩

theorem extract_sentiment_cases (text brand : List Char) :
    extract_sentiment text brand = "positive" ∨
    extract_sentiment text brand = "negative" ∨
    extract_sentiment text brand = "neutral" := by
  simp only [extract_sentiment]
  split
  · right; right; rfl
  · split
    · left; rfl
    · split
      · right; left; rfl
      · right; right; rfl

theorem sb_foldl_sum (ms : List BrandMention) :
    ∀ init : SentimentBreakdown,
      (∀ m ∈ ms, ∀ s, m.sentiment = some s →
        s = "positive" ∨ s = "negative" ∨ s = "neutral") →
      ((ms.foldl (fun acc m => match m.sentiment with
          | some s => sbIncr acc s
          | none => acc) init).positive +
       (ms.foldl (fun acc m => match m.sentiment with
          | some s => sbIncr acc s
          | none => acc) init).negative +
       (ms.foldl (fun acc m => match m.sentiment with
          | some s => sbIncr acc s
          | none => acc) init).neutral) =
      init.positive + init.negative + init.neutral +
        ms.countP (fun m => m.sentiment.isSome) := by
  induction ms with
  | nil =>
    intro init _
    simp
  | cons m t ih =>
    intro init hs
    rw [List.foldl_cons, List.countP_cons]
    cases hm : m.sentiment with
    | none =>
      simp only [hm]
      rw [ih init (fun x hx => hs x (List.mem_cons_of_mem _ hx))]
      simp [hm]
    | some s =>
      simp only [hm]
      rw [ih (sbIncr init s) (fun x hx => hs x (List.mem_cons_of_mem _ hx))]
      rcases hs m (List.mem_cons_self _ _) s hm with h | h | h <;>
        subst h <;> simp [sbIncr, hm] <;> omega

theorem analyze_geo_mentions (req : GEORequest) (gem chat : List Char → List Char)
    (compExtract : List Char → List Char → List (List Char)) :
    ∀ m ∈ (analyze_geo req gem chat compExtract).mentions,
      ∃ platform q text, m = mkBrandMention platform q (clean_domain req.domain)
        text req.check_competitors compExtract := by
  intro m hm
  simp only [analyze_geo] at hm
  obtain ⟨q, _, hmem⟩ := List.mem_flatMap.mp hm
  simp only [List.mem_cons, List.mem_singleton, List.not_mem_nil, or_false] at hmem
  rcases hmem with rfl | rfl
  · exact ⟨"gemini", q, gem q, rfl⟩
  · exact ⟨"chatgpt", q, chat q, rfl⟩

/-- C10 (amended): in every GEO analyze result, a probe with
`mentioned = true` has its context and sentiment present, and the
positive + negative + neutral counts always sum exactly to
`mentions_found` — both unconditionally; provided the cleaned domain
contains no newline character, every mentioned probe also has its rank
present.  (A domain containing a newline can occur in the text
without occurring in any single line, leaving the rank absent: see the
counterexample.) -/
theorem c10_analyze_geo (req : GEORequest) (gem chat : List Char → List Char)
    (compExtract : List Char → List Char → List (List Char)) :
    (∀ m ∈ (analyze_geo req gem chat compExtract).mentions, m.mentioned = true →
      m.context.isSome = true ∧ m.sentiment.isSome = true) ∧
    ('\n' ∉ clean_domain req.domain →
      ∀ m ∈ (analyze_geo req gem chat compExtract).mentions, m.mentioned = true →
        m.rank.isSome = true) ∧
    (analyze_geo req gem chat compExtract).summary.sentiment_breakdown.positive +
      (analyze_geo req gem chat compExtract).summary.sentiment_breakdown.negative +
      (analyze_geo req gem chat compExtract).summary.sentiment_breakdown.neutral =
      (analyze_geo req gem chat compExtract).summary.mentions_found := by
  have hrange : ∀ m ∈ (analyze_geo req gem chat compExtract).mentions,
      ∀ s, m.sentiment = some s →
        s = "positive" ∨ s = "negative" ∨ s = "neutral" := by
    intro m hm s hs
    obtain ⟨p, q, text, rfl⟩ := analyze_geo_mentions req gem chat compExtract m hm
    simp only [mkBrandMention] at hs
    by_cases hb : containsSub (lowerStr text) (lowerStr (clean_domain req.domain)) = true
    · rw [if_pos hb] at hs
      obtain rfl := Option.some.inj hs
      exact extract_sentiment_cases _ _
    · rw [if_neg hb] at hs
      exact absurd hs (by simp)
  have hpoint : ∀ m ∈ (analyze_geo req gem chat compExtract).mentions,
      ((fun m : BrandMention => m.sentiment.isSome) m = true ↔
       (fun m : BrandMention => m.mentioned) m = true) := by
    intro m hm
    obtain ⟨p, q, text, rfl⟩ := analyze_geo_mentions req gem chat compExtract m hm
    cases hb : containsSub (lowerStr text) (lowerStr (clean_domain req.domain)) <;>
      simp [mkBrandMention, hb]
  refine ⟨?_, ?_, ?_⟩
  · intro m hm hme
    obtain ⟨p, q, text, rfl⟩ := analyze_geo_mentions req gem chat compExtract m hm
    have hcc : containsSub (lowerStr text) (lowerStr (clean_domain req.domain)) = true := by
      simpa [mkBrandMention] using hme
    exact ⟨by simp [mkBrandMention, hcc], by simp [mkBrandMention, hcc]⟩
  · intro hnl m hm hme
    obtain ⟨p, q, text, rfl⟩ := analyze_geo_mentions req gem chat compExtract m hm
    have hcc : containsSub (lowerStr text) (lowerStr (clean_domain req.domain)) = true := by
      simpa [mkBrandMention] using hme
    simp only [mkBrandMention, hcc, if_true]
    exact extract_rank_isSome _ _ hcc hnl
  · have hsb : (analyze_geo req gem chat compExtract).summary.sentiment_breakdown =
        (analyze_geo req gem chat compExtract).mentions.foldl
          (fun acc m => match m.sentiment with
            | some s => sbIncr acc s
            | none => acc) ⟨0, 0, 0⟩ := rfl
    have hmf : (analyze_geo req gem chat compExtract).summary.mentions_found =
        (analyze_geo req gem chat compExtract).mentions.countP
          (fun m => m.mentioned) := rfl
    rw [hsb, hmf, sb_foldl_sum _ ⟨0, 0, 0⟩ (fun m hm => hrange m hm)]
    simp only [Nat.zero_add]
    exact List.countP_congr (fun x hx => hpoint x hx)

/-- C10 counterexample: with domain `"a\nb"` and every backend answering
`"xa\nbx"`, the first probe is mentioned (the domain is a substring of the
text) yet its rank is absent — the domain occurs in no single line — so
not every mentioned probe has all three fields present. -/
theorem c10_counterexample :
    ((analyze_geo c10req (fun _ => "xa\nbx".toList) (fun _ => "xa\nbx".toList)
        (fun _ _ => [])).mentions.head?.map (fun m => (m.mentioned, m.rank))) =
      some (true, none) := by decide

/-- C10 witness: the amended invariant applied to a concrete
newline-free request, with the no-newline proviso of the rank conjunct
discharged at that input. -/
theorem c10_witness :
    ('\n' ∉ clean_domain ("acme.com".toList)) ∧
    ((∀ m ∈ (analyze_geo c10wreq c10wgem c10wchat c10wcomp).mentions,
        m.mentioned = true →
        m.context.isSome = true ∧ m.sentiment.isSome = true) ∧
      (∀ m ∈ (analyze_geo c10wreq c10wgem c10wchat c10wcomp).mentions,
        m.mentioned = true → m.rank.isSome = true) ∧
      (analyze_geo c10wreq c10wgem c10wchat c10wcomp).summary.sentiment_breakdown.positive +
      (analyze_geo c10wreq c10wgem c10wchat c10wcomp).summary.sentiment_breakdown.negative +
      (analyze_geo c10wreq c10wgem c10wchat c10wcomp).summary.sentiment_breakdown.neutral =
      (analyze_geo c10wreq c10wgem c10wchat c10wcomp).summary.mentions_found) :=
  ⟨by decide,
   (c10_analyze_geo c10wreq c10wgem c10wchat c10wcomp).1,
   (c10_analyze_geo c10wreq c10wgem c10wchat c10wcomp).2.1 (by decide),
   (c10_analyze_geo c10wreq c10wgem c10wchat c10wcomp).2.2⟩

theorem heading_not_bulletParas (s : String) (l : List String) :
    Elem.heading s ∉ bulletParas l := by
  simp [bulletParas]

theorem heading_not_recsBlock (t s : String) (o : Option (List String)) :
    Elem.heading s ∉ recsBlock t o := by
  unfold recsBlock
  cases o with
  | none => simp
  | some l =>
    by_cases he : l.isEmpty <;> simp [he, heading_not_bulletParas]

theorem heading_not_statsBlock (req : ReportRequest) (s : String) :
    Elem.heading s ∉ statsBlock req := by
  unfold statsBlock
  cases req.seo_data <;> simp

theorem heading_not_cwvBlock (o : Option ReportSeoCwv) (s : String) :
    Elem.heading s ∉ cwvBlock o := by
  unfold cwvBlock
  cases o <;> simp

theorem heading_not_idxBlock (o : Option ReportIndexStatus) (s : String) :
    Elem.heading s ∉ idxBlock o := by
  unfold idxBlock
  cases o <;> simp

theorem heading_not_perfBlock (o : Option (List ReportPerfRow)) (s : String) :
    Elem.heading s ∉ perfBlock o := by
  unfold perfBlock
  cases o with
  | none => simp
  | some l => by_cases he : l.isEmpty <;> simp [he]

theorem heading_not_geoSentimentBlock (o : Option (List (String × ℤ))) (s : String) :
    Elem.heading s ∉ geoSentimentBlock o := by
  unfold geoSentimentBlock
  cases o with
  | none => simp
  | some sb => simp [geoSentimentParas]

theorem heading_not_geoSummaryBlock (o : Option ReportGeoSummary) (s : String) :
    Elem.heading s ∉ geoSummaryBlock o := by
  unfold geoSummaryBlock
  cases o with
  | none => simp
  | some g => simp [geoSummaryPara, heading_not_geoSentimentBlock]

theorem heading_not_metricsBlock (t : ReportTrafficData) (s : String) :
    Elem.heading s ∉ metricsBlock t := by
  unfold metricsBlock
  cases t.metrics <;> simp [metricsPara]

theorem heading_not_srcsBlock (o : Option (List ReportTrafficSourceD)) (s : String) :
    Elem.heading s ∉ srcsBlock o := by
  unfold srcsBlock
  cases o with
  | none => simp
  | some l => by_cases he : l.isEmpty <;> simp [he]

theorem heading_not_kwsBlock (o : Option (List ReportKeywordD)) (s : String) :
    Elem.heading s ∉ kwsBlock o := by
  unfold kwsBlock
  cases o with
  | none => simp
  | some l => by_cases he : l.isEmpty <;> simp [he]

theorem heading_not_titleBlock (req : ReportRequest) (now s : String) :
    Elem.heading s ∉ titleBlock req now := by
  unfold titleBlock
  cases req.company_name <;> simp

theorem heading_not_footerBlock (s : String) :
    Elem.heading s ∉ footerBlock := by
  simp [footerBlock]

theorem heading_execBlock (req : ReportRequest) (s : String) :
    Elem.heading s ∈ execBlock req ↔ s = "Executive Summary" := by
  unfold execBlock
  simp [heading_not_statsBlock req s]

theorem heading_seoBlock (req : ReportRequest) (s : String) :
    Elem.heading s ∈ seoBlock req ↔
      (s = "1. SEO Health Analysis" ∧ "seo" ∈ req.include_sections ∧
        req.seo_data.isSome = true) := by
  unfold seoBlock
  by_cases hi : "seo" ∈ req.include_sections
  · simp only [hi, if_true]
    cases req.seo_data with
    | none => simp
    | some seo =>
      simp [heading_not_cwvBlock, heading_not_recsBlock, hi]
  · simp [hi]

theorem heading_searchBlock (req : ReportRequest) (s : String) :
    Elem.heading s ∈ searchBlock req ↔
      (s = "2. Search Visibility Analysis" ∧ "search" ∈ req.include_sections ∧
        req.search_data.isSome = true) := by
  unfold searchBlock
  by_cases hi : "search" ∈ req.include_sections
  · simp only [hi, if_true]
    cases req.search_data with
    | none => simp
    | some search =>
      simp [heading_not_idxBlock, heading_not_perfBlock, heading_not_recsBlock, hi]
  · simp [hi]

theorem heading_geoBlock (req : ReportRequest) (s : String) :
    Elem.heading s ∈ geoBlock req ↔
      (s = "3. Generative Engine Optimization (GEO)" ∧
        "geo" ∈ req.include_sections ∧ req.geo_data.isSome = true) := by
  unfold geoBlock
  by_cases hi : "geo" ∈ req.include_sections
  · simp only [hi, if_true]
    cases req.geo_data with
    | none => simp
    | some geo =>
      simp [heading_not_geoSummaryBlock, heading_not_recsBlock, hi]
  · simp [hi]

theorem heading_trafficBlock (req : ReportRequest) (s : String) :
    Elem.heading s ∈ trafficBlock req ↔
      (s = "4. Traffic Estimation" ∧ "traffic" ∈ req.include_sections ∧
        req.traffic_data.isSome = true) := by
  unfold trafficBlock
  by_cases hi : "traffic" ∈ req.include_sections
  · simp only [hi, if_true]
    cases req.traffic_data with
    | none => simp
    | some t =>
      simp [heading_not_metricsBlock, heading_not_srcsBlock, heading_not_kwsBlock,
        heading_not_recsBlock, hi]
  · simp [hi]

theorem countP_isBullet_bulletParas (l : List String) :
    (bulletParas l).countP isBullet = l.length := by
  unfold bulletParas
  induction l with
  | nil => rfl
  | cons r t ih => simp [List.countP_cons, isBullet, ih]

theorem countP_isBullet_recsBlock (t : String) (o : Option (List String)) :
    (recsBlock t o).countP isBullet ≤ 5 := by
  unfold recsBlock
  cases o with
  | none => simp
  | some l =>
    by_cases he : l.isEmpty
    · simp [he]
    · simp only [he, if_false, Bool.false_eq_true]
      rw [List.countP_cons, List.countP_append, countP_isBullet_bulletParas]
      have h1 : isBullet (Elem.subheading t) = false := rfl
      have h2 : List.countP isBullet [Elem.spacer] = 0 := rfl
      rw [h2]
      simp [h1, List.length_take]

theorem countP_isBullet_titleBlock (req : ReportRequest) (now : String) :
    (titleBlock req now).countP isBullet = 0 := by
  unfold titleBlock
  cases req.company_name <;> simp [List.countP_cons, List.countP_append, isBullet]

theorem countP_isBullet_statsBlock (req : ReportRequest) :
    (statsBlock req).countP isBullet = 0 := by
  unfold statsBlock
  cases req.seo_data <;> simp [List.countP_cons, isBullet]

theorem countP_isBullet_execBlock (req : ReportRequest) :
    (execBlock req).countP isBullet = 0 := by
  unfold execBlock
  rw [List.countP_append, List.countP_append, countP_isBullet_statsBlock]
  simp [List.countP_cons, isBullet]

theorem countP_isBullet_cwvBlock (o : Option ReportSeoCwv) :
    (cwvBlock o).countP isBullet = 0 := by
  unfold cwvBlock
  cases o <;> simp [List.countP_cons, isBullet]

theorem countP_isBullet_seoBlock (req : ReportRequest) :
    (seoBlock req).countP isBullet ≤ 5 := by
  unfold seoBlock
  by_cases hi : "seo" ∈ req.include_sections
  · rw [if_pos hi]
    cases req.seo_data with
    | none => simp
    | some seo =>
      rw [List.countP_append, List.countP_append, List.countP_append,
        countP_isBullet_cwvBlock]
      have h5 := countP_isBullet_recsBlock "SEO Recommendations" seo.recommendations
      have h1 : List.countP isBullet
          [Elem.heading "1. SEO Health Analysis", Elem.spacer,
           Elem.subheading "Performance Scores", Elem.table (scoresRows seo),
           Elem.spacer] = 0 := rfl
      have h2 : List.countP isBullet [Elem.pageBreak] = 0 := rfl
      omega
  · rw [if_neg hi]
    simp

theorem countP_isBullet_idxBlock (o : Option ReportIndexStatus) :
    (idxBlock o).countP isBullet = 0 := by
  unfold idxBlock
  cases o <;> simp [List.countP_cons, isBullet]

theorem countP_isBullet_perfBlock (o : Option (List ReportPerfRow)) :
    (perfBlock o).countP isBullet = 0 := by
  unfold perfBlock
  cases o with
  | none => simp
  | some l =>
    by_cases he : l.isEmpty <;> simp [he, List.countP_cons, isBullet]

theorem countP_isBullet_searchBlock (req : ReportRequest) :
    (searchBlock req).countP isBullet ≤ 5 := by
  unfold searchBlock
  by_cases hi : "search" ∈ req.include_sections
  · rw [if_pos hi]
    cases req.search_data with
    | none => simp
    | some search =>
      rw [List.countP_append, List.countP_append, List.countP_append,
        List.countP_append, countP_isBullet_idxBlock, countP_isBullet_perfBlock]
      have h5 := countP_isBullet_recsBlock "Search Visibility Recommendations"
        search.recommendations
      have h1 : List.countP isBullet
          [Elem.heading "2. Search Visibility Analysis", Elem.spacer] = 0 := rfl
      have h2 : List.countP isBullet [Elem.pageBreak] = 0 := rfl
      omega
  · rw [if_neg hi]
    simp

theorem countP_isBullet_geoSentimentParas (sb : List (String × ℤ)) :
    (geoSentimentParas sb).countP isBullet = 0 := by
  rw [List.countP_eq_zero]
  intro e he
  obtain ⟨p, _, hpe⟩ := List.mem_filterMap.mp he
  by_cases h0 : 0 < p.2
  · rw [if_pos h0] at hpe
    obtain rfl := Option.some.inj hpe
    show ¬ (isBullet (Elem.para [Cell.s (sentimentIcon p.1), Cell.s p.1, Cell.i p.2]) = true)
    have : isBullet (Elem.para [Cell.s (sentimentIcon p.1), Cell.s p.1, Cell.i p.2]) =
        decide (sentimentIcon p.1 = "• ") := rfl
    rw [this]
    simp only [decide_eq_true_eq]
    unfold sentimentIcon
    split
    · decide
    · split
      · decide
      · decide
  · rw [if_neg h0] at hpe
    exact absurd hpe (by simp)

theorem countP_isBullet_geoSentimentBlock (o : Option (List (String × ℤ))) :
    (geoSentimentBlock o).countP isBullet = 0 := by
  unfold geoSentimentBlock
  cases o with
  | none => rfl
  | some sb =>
    rw [List.countP_cons, List.countP_append, countP_isBullet_geoSentimentParas]
    rfl

theorem countP_isBullet_geoSummaryBlock (o : Option ReportGeoSummary) :
    (geoSummaryBlock o).countP isBullet = 0 := by
  unfold geoSummaryBlock
  cases o with
  | none => rfl
  | some g =>
    rw [List.countP_append, countP_isBullet_geoSentimentBlock]
    simp [List.countP_cons, isBullet, geoSummaryPara]

theorem countP_isBullet_geoBlock (req : ReportRequest) :
    (geoBlock req).countP isBullet ≤ 5 := by
  unfold geoBlock
  by_cases hi : "geo" ∈ req.include_sections
  · rw [if_pos hi]
    cases req.geo_data with
    | none => simp
    | some geo =>
      rw [List.countP_append, List.countP_append, List.countP_append,
        countP_isBullet_geoSummaryBlock]
      have h5 := countP_isBullet_recsBlock "GEO Recommendations" geo.recommendations
      have h1 : List.countP isBullet
          [Elem.heading "3. Generative Engine Optimization (GEO)", Elem.spacer] = 0 := rfl
      have h2 : List.countP isBullet [Elem.pageBreak] = 0 := rfl
      omega
  · rw [if_neg hi]
    simp

theorem countP_isBullet_metricsBlock (t : ReportTrafficData) :
    (metricsBlock t).countP isBullet = 0 := by
  unfold metricsBlock
  cases t.metrics <;> simp [List.countP_cons, isBullet, metricsPara]

theorem countP_isBullet_srcsBlock (o : Option (List ReportTrafficSourceD)) :
    (srcsBlock o).countP isBullet = 0 := by
  unfold srcsBlock
  cases o with
  | none => simp
  | some l =>
    by_cases he : l.isEmpty <;> simp [he, List.countP_cons, isBullet]

theorem countP_isBullet_kwsBlock (o : Option (List ReportKeywordD)) :
    (kwsBlock o).countP isBullet = 0 := by
  unfold kwsBlock
  cases o with
  | none => simp
  | some l =>
    by_cases he : l.isEmpty <;> simp [he, List.countP_cons, isBullet]

theorem countP_isBullet_trafficBlock (req : ReportRequest) :
    (trafficBlock req).countP isBullet ≤ 5 := by
  unfold trafficBlock
  by_cases hi : "traffic" ∈ req.include_sections
  · rw [if_pos hi]
    cases req.traffic_data with
    | none => simp
    | some t =>
      simp only [List.countP_append]
      rw [countP_isBullet_metricsBlock, countP_isBullet_srcsBlock,
        countP_isBullet_kwsBlock]
      have h5 := countP_isBullet_recsBlock "Traffic Recommendations" t.recommendations
      have h1 : List.countP isBullet
          [Elem.heading "4. Traffic Estimation", Elem.spacer] = 0 := rfl
      omega
  · rw [if_neg hi]
    simp

theorem countP_isBullet_footerBlock : footerBlock.countP isBullet = 0 := rfl

theorem countP_isBullet_report (req : ReportRequest) (now : String) :
    (create_pdf_report req now).countP isBullet ≤ 20 := by
  unfold create_pdf_report
  rw [List.countP_append, List.countP_append, List.countP_append,
    List.countP_append, List.countP_append, List.countP_append,
    countP_isBullet_titleBlock, countP_isBullet_execBlock,
    countP_isBullet_footerBlock]
  have h1 := countP_isBullet_seoBlock req
  have h2 := countP_isBullet_searchBlock req
  have h3 := countP_isBullet_geoBlock req
  have h4 := countP_isBullet_trafficBlock req
  omega

theorem rowBound_of_head (hdr : List Cell) (body : List (List Cell))
    (hp : hdr = perfHeader → body.length ≤ 5)
    (hk : hdr = kwHeader → body.length ≤ 5) : rowBound (hdr :: body) := by
  constructor
  · intro hh
    have he := Option.some.inj hh
    have := hp he
    simp [List.length_cons]
    omega
  · intro hh
    have he := Option.some.inj hh
    have := hk he
    simp [List.length_cons]
    omega

theorem table_statsBlock (req : ReportRequest) (rows : List (List Cell))
    (h : Elem.table rows ∈ statsBlock req) : rowBound rows := by
  unfold statsBlock at h
  cases hd : req.seo_data with
  | none => rw [hd] at h; simp at h
  | some seo =>
    rw [hd] at h
    simp at h
    subst h
    unfold statsRows
    refine rowBound_of_head _ _ ?_ ?_ <;> intro he <;> exact absurd he (by decide)

theorem table_execBlock (req : ReportRequest) (rows : List (List Cell))
    (h : Elem.table rows ∈ execBlock req) : rowBound rows := by
  unfold execBlock at h
  simp at h
  exact table_statsBlock req rows h

theorem table_cwvBlock (o : Option ReportSeoCwv) (rows : List (List Cell))
    (h : Elem.table rows ∈ cwvBlock o) : rowBound rows := by
  unfold cwvBlock at h
  cases o with
  | none => simp at h
  | some cwv =>
    simp at h
    subst h
    unfold cwvRows
    refine rowBound_of_head _ _ ?_ ?_ <;> intro he <;> exact absurd he (by decide)

theorem table_not_bulletParas (rows : List (List Cell)) (l : List String) :
    Elem.table rows ∉ bulletParas l := by
  simp [bulletParas]

theorem table_not_recsBlock (t : String) (o : Option (List String))
    (rows : List (List Cell)) : Elem.table rows ∉ recsBlock t o := by
  unfold recsBlock
  cases o with
  | none => simp
  | some l =>
    by_cases he : l.isEmpty <;> simp [he, table_not_bulletParas]

theorem table_seoBlock (req : ReportRequest) (rows : List (List Cell))
    (h : Elem.table rows ∈ seoBlock req) : rowBound rows := by
  unfold seoBlock at h
  by_cases hi : "seo" ∈ req.include_sections
  · rw [if_pos hi] at h
    cases hd : req.seo_data with
    | none => rw [hd] at h; simp at h
    | some seo =>
      rw [hd] at h
      simp [table_not_recsBlock] at h
      rcases h with h | h
      · subst h
        unfold scoresRows
        refine rowBound_of_head _ _ ?_ ?_ <;> intro he <;> exact absurd he (by decide)
      · exact table_cwvBlock _ _ h
  · rw [if_neg hi] at h
    simp at h

theorem table_idxBlock (o : Option ReportIndexStatus) (rows : List (List Cell))
    (h : Elem.table rows ∈ idxBlock o) : rowBound rows := by
  unfold idxBlock at h
  cases o with
  | none => simp at h
  | some idx =>
    simp at h
    subst h
    unfold indexRows
    refine rowBound_of_head _ _ ?_ ?_ <;> intro he <;> exact absurd he (by decide)

theorem table_perfBlock (o : Option (List ReportPerfRow)) (rows : List (List Cell))
    (h : Elem.table rows ∈ perfBlock o) : rowBound rows := by
  cases o with
  | none => simp [perfBlock] at h
  | some perf =>
    by_cases he : perf.isEmpty
    · simp [perfBlock, he] at h
    · simp only [perfBlock, he, if_false, Bool.false_eq_true, List.mem_cons,
        List.mem_singleton, List.not_mem_nil, or_false] at h
      simp at h
      subst h
      refine rowBound_of_head _ _ ?_ ?_
      · intro _
        simp [List.length_take]
      · intro hh
        exact absurd hh (by decide)

theorem table_searchBlock (req : ReportRequest) (rows : List (List Cell))
    (h : Elem.table rows ∈ searchBlock req) : rowBound rows := by
  unfold searchBlock at h
  by_cases hi : "search" ∈ req.include_sections
  · rw [if_pos hi] at h
    cases hd : req.search_data with
    | none => rw [hd] at h; simp at h
    | some search =>
      rw [hd] at h
      simp [table_not_recsBlock] at h
      rcases h with h | h
      · exact table_idxBlock _ _ h
      · exact table_perfBlock _ _ h
  · rw [if_neg hi] at h
    simp at h

theorem table_not_geoSentimentBlock (o : Option (List (String × ℤ)))
    (rows : List (List Cell)) : Elem.table rows ∉ geoSentimentBlock o := by
  unfold geoSentimentBlock
  cases o with
  | none => simp
  | some sb => simp [geoSentimentParas]

theorem table_not_geoSummaryBlock (o : Option ReportGeoSummary)
    (rows : List (List Cell)) : Elem.table rows ∉ geoSummaryBlock o := by
  unfold geoSummaryBlock
  cases o with
  | none => simp
  | some g => simp [geoSummaryPara, table_not_geoSentimentBlock]

theorem table_geoBlock (req : ReportRequest) (rows : List (List Cell))
    (h : Elem.table rows ∈ geoBlock req) : rowBound rows := by
  unfold geoBlock at h
  by_cases hi : "geo" ∈ req.include_sections
  · rw [if_pos hi] at h
    cases hd : req.geo_data with
    | none => rw [hd] at h; simp at h
    | some geo =>
      rw [hd] at h
      simp [table_not_recsBlock, table_not_geoSummaryBlock] at h
  · rw [if_neg hi] at h
    simp at h

theorem table_not_metricsBlock (t : ReportTrafficData) (rows : List (List Cell)) :
    Elem.table rows ∉ metricsBlock t := by
  unfold metricsBlock
  cases t.metrics <;> simp [metricsPara]

theorem table_srcsBlock (o : Option (List ReportTrafficSourceD))
    (rows : List (List Cell)) (h : Elem.table rows ∈ srcsBlock o) :
    rowBound rows := by
  cases o with
  | none => simp [srcsBlock] at h
  | some srcs =>
    by_cases he : srcs.isEmpty
    · simp [srcsBlock, he] at h
    · simp [srcsBlock, he] at h
      subst h
      refine rowBound_of_head _ _ ?_ ?_ <;> intro he2 <;> exact absurd he2 (by decide)

theorem table_kwsBlock (o : Option (List ReportKeywordD)) (rows : List (List Cell))
    (h : Elem.table rows ∈ kwsBlock o) : rowBound rows := by
  cases o with
  | none => simp [kwsBlock] at h
  | some kws =>
    by_cases he : kws.isEmpty
    · simp [kwsBlock, he] at h
    · simp [kwsBlock, he] at h
      subst h
      refine rowBound_of_head _ _ ?_ ?_
      · intro hh
        exact absurd hh (by decide)
      · intro _
        simp [List.length_take]

theorem table_trafficBlock (req : ReportRequest) (rows : List (List Cell))
    (h : Elem.table rows ∈ trafficBlock req) : rowBound rows := by
  unfold trafficBlock at h
  by_cases hi : "traffic" ∈ req.include_sections
  · rw [if_pos hi] at h
    cases hd : req.traffic_data with
    | none => rw [hd] at h; simp at h
    | some t =>
      rw [hd] at h
      simp [table_not_recsBlock, table_not_metricsBlock] at h
      rcases h with h | h
      · exact table_srcsBlock _ _ h
      · exact table_kwsBlock _ _ h
  · rw [if_neg hi] at h
    simp at h

theorem table_report (req : ReportRequest) (now : String) (rows : List (List Cell))
    (h : Elem.table rows ∈ create_pdf_report req now) : rowBound rows := by
  unfold create_pdf_report at h
  simp only [List.mem_append] at h
  rcases h with ((((((h | h) | h) | h) | h) | h) | h)
  · exfalso
    revert h
    unfold titleBlock
    cases req.company_name <;> simp
  · exact table_execBlock req rows h
  · exact table_seoBlock req rows h
  · exact table_searchBlock req rows h
  · exact table_geoBlock req rows h
  · exact table_trafficBlock req rows h
  · exact absurd h (by simp [footerBlock])

theorem heading_report (req : ReportRequest) (now : String) (s : String) :
    (Elem.heading s ∈ create_pdf_report req now) ↔
      (s = "Executive Summary" ∨
       (s = "1. SEO Health Analysis" ∧ "seo" ∈ req.include_sections ∧
         req.seo_data.isSome = true) ∨
       (s = "2. Search Visibility Analysis" ∧ "search" ∈ req.include_sections ∧
         req.search_data.isSome = true) ∨
       (s = "3. Generative Engine Optimization (GEO)" ∧
         "geo" ∈ req.include_sections ∧ req.geo_data.isSome = true) ∨
       (s = "4. Traffic Estimation" ∧ "traffic" ∈ req.include_sections ∧
         req.traffic_data.isSome = true)) := by
  unfold create_pdf_report
  simp only [List.mem_append, heading_execBlock, heading_seoBlock,
    heading_searchBlock, heading_geoBlock, heading_trafficBlock]
  have ht := heading_not_titleBlock req now s
  have hf := heading_not_footerBlock s
  tauto

/-- C8 (amended): a module section heading appears in the rendered
document iff the module is in the inclusion set and its payload is present;
recommendation bullets are capped at 5 per section (at most 20 in the
document), the search-query and keyword tables carry at most 5 data rows;
the traffic-sources table, however, renders EVERY entry of the payload —
the source's loop has no `[:5]` slice (see the counterexample). -/
theorem c8_create_pdf_report (req : ReportRequest) (now : String) :
    ((Elem.heading "1. SEO Health Analysis" ∈ create_pdf_report req now) ↔
      ("seo" ∈ req.include_sections ∧ req.seo_data.isSome = true)) ∧
    ((Elem.heading "2. Search Visibility Analysis" ∈ create_pdf_report req now) ↔
      ("search" ∈ req.include_sections ∧ req.search_data.isSome = true)) ∧
    ((Elem.heading "3. Generative Engine Optimization (GEO)" ∈
        create_pdf_report req now) ↔
      ("geo" ∈ req.include_sections ∧ req.geo_data.isSome = true)) ∧
    ((Elem.heading "4. Traffic Estimation" ∈ create_pdf_report req now) ↔
      ("traffic" ∈ req.include_sections ∧ req.traffic_data.isSome = true)) ∧
    (create_pdf_report req now).countP isBullet ≤ 20 ∧
    (∀ rows, Elem.table rows ∈ create_pdf_report req now →
      rows.head? = some perfHeader → rows.length ≤ 6) ∧
    (∀ rows, Elem.table rows ∈ create_pdf_report req now →
      rows.head? = some kwHeader → rows.length ≤ 6) ∧
    (∀ t srcs, req.traffic_data = some t → "traffic" ∈ req.include_sections →
      t.traffic_sources = some srcs → srcs ≠ [] →
      Elem.table (sourcesHeader :: srcs.map srcRow) ∈ create_pdf_report req now) := by
  refine ⟨?_, ?_, ?_, ?_, countP_isBullet_report req now, ?_, ?_, ?_⟩
  · rw [heading_report]
    simp
  · rw [heading_report]
    simp
  · rw [heading_report]
    simp
  · rw [heading_report]
    simp
  · intro rows h hh
    exact (table_report req now rows h).1 hh
  · intro rows h hh
    exact (table_report req now rows h).2 hh
  · intro t srcs hd hi hs hne
    have he : ¬ (srcs.isEmpty = true) := fun hh => hne (by simpa using hh)
    have hmem2 : Elem.table (sourcesHeader :: srcs.map srcRow) ∈ srcsBlock (some srcs) := by
      simp [srcsBlock, he]
    have hT : Elem.table (sourcesHeader :: srcs.map srcRow) ∈ trafficBlock req := by
      unfold trafficBlock
      rw [if_pos hi]
      simp only [hd, hs]
      simp only [List.mem_append]
      tauto
    unfold create_pdf_report
    simp only [List.mem_append]
    tauto

/-- C8 counterexample: a traffic payload with six sources renders a
traffic-sources table with 7 rows (header + all 6 entries) — the claimed
top-5 truncation of every list-type subsection does not hold for traffic
sources. -/
theorem c8_counterexample :
    (Elem.table (sourcesHeader :: c8sources.map srcRow) ∈
        create_pdf_report c8req "Jan 1" ∧
      (sourcesHeader :: c8sources.map srcRow).length = 7) ∧
    ¬ (∀ rows, Elem.table rows ∈ create_pdf_report c8req "Jan 1" →
        rows.head? = some sourcesHeader → rows.length ≤ 6) := by
  constructor
  · exact ⟨by decide, by decide⟩
  · intro hall
    have h := hall (sourcesHeader :: c8sources.map srcRow) (by decide) (by decide)
    exact absurd h (by decide)

/-- C8 witness: the untruncated traffic-sources table membership obtained
from the amended theorem at the concrete request. -/
theorem c8_witness :
    Elem.table (sourcesHeader :: c8sources.map srcRow) ∈
      create_pdf_report c8req "Jan 1" :=
  (c8_create_pdf_report c8req "Jan 1").2.2.2.2.2.2.2 c8traffic c8sources rfl
    (by decide) rfl (by decide)
